import Mathlib

/-! # dyndns: record discovery and reconciliation

A shallow embedding of `dyndns/service.go`.  Go strings are Lean strings, the
Go `error` interface is `Option Error` (`none` is `nil`), and the mutable
receiver `*updater` is passed in and handed back.  The calls that leave the
process (`http.Get`, the three methods of `*cloudflare.API`) are answered by an
explicit environment, and every such call is written to a log, so that "which
calls were made, in which order, with which arguments" is a value one can state
theorems about.
-/

set_option autoImplicit false

namespace dyndns

/-! ## Data -/

/-- The two record types the updater manages; used to say which block of
`updateRecords` made a provider call. -/
inductive Family where
  | A
  | AAAA
deriving DecidableEq, Repr

/-- A Go `error` value.  `New text` is the value of `errors.New(text)`; `lib what`
is an error handed back by a library (net/http, bufio, cloudflare-go), which the
code only ever compares with `nil` and passes on. -/
inductive Error where
  | New (text : String)
  | lib (what : String)
deriving DecidableEq, Repr

/-- The fields of `cloudflare.DNSRecord` that the code reads or writes; `Typ` is
the Go field `Type`. -/
structure DNSRecord where
  ID : String
  Typ : String
  Name : String
  Content : String
deriving DecidableEq, Repr

/-- What a `bufio.Scanner` over a response body yields: the tokens returned by
the successive successful calls of `Scan` (one per line), and the value of
`Err` once `Scan` has returned false. -/
structure Body where
  lines : List String
  err : Option Error
deriving DecidableEq, Repr

/-- The part of `http.Response` the code looks at. -/
structure Response where
  StatusCode : Int
  Body : Body
deriving DecidableEq, Repr

/-- One call that leaves the process.  The provider calls made by
`updateRecord` carry the block of `updateRecords` they were made from. -/
inductive Call where
  | Get (url : String)
  | DNSRecord (f : Family) (zone : String) (record : String)
  | Raw (f : Family) (method : String) (path : String) (body : dyndns.DNSRecord)
deriving DecidableEq, Repr

/-- The answers of `*cloudflare.API` to the calls the code makes on it. -/
structure API where
  DNSRecords : String → DNSRecord → Except Error (List DNSRecord)
  DNSRecord : String → String → Except Error dyndns.DNSRecord
  Raw : String → String → dyndns.DNSRecord → Option Error

/-- The outside world during one call of `updateRecords`: the answer of
`http.Get` to each URL (the four trace URLs differ, so each is requested at most
once), the table `http.StatusText`, and the provider as it answers during the A
block and during the AAAA block (it may have changed in between; within one
block each method is called at most once). -/
structure Env where
  Get : String → Except Error Response
  StatusText : Int → String
  apiA : API
  apiAAAA : API

/-- The fields of `updater` other than the API handle, whose answers are in
`API` and `Env`. -/
structure updater where
  zone : String
  a : String
  aaaa : String
  ipv4 : String
  ipv6 : String
deriving DecidableEq, Repr

/-- The value of `updater{api: api, zone: zone}`: every other field is the
empty string. -/
def updater.fresh (zone : String) : updater :=
  { zone := zone, a := "", aaaa := "", ipv4 := "", ipv6 := "" }

/-! ## The resolver -/

/-- The constant `http.StatusOK`. -/
def StatusOK : Int := 200

/-- The constant called prefix in `publicIP`. -/
def pfx : String := "ip="

/-- The test `bytes.HasPrefix(line, p)`. -/
def HasPrefix (line p : String) : Bool :=
  p.data.isPrefixOf line.data

/-- The slice `line[n:]` converted to a string. -/
def sliceFrom (line : String) (n : Nat) : String :=
  String.mk (line.data.drop n)

/-- The loop `for scanner.Scan() { ... }` of `publicIP`: the value of the
first token that starts with the constant, if the loop returns from inside. -/
def scanLoop : List String → Option String
  | [] => none
  | line :: rest =>
    if HasPrefix line pfx then some (sliceFrom line pfx.length)
    else scanLoop rest

/-- What `publicIP` hands back, and the requests it made. -/
structure IPResult where
  ip : String
  err : Option Error
  log : List Call
deriving DecidableEq, Repr

/-- The part of `publicIP` after the response has been obtained. -/
def readTrace (env : Env) (res : Response) (log : List Call) : IPResult :=
  if res.StatusCode ≠ StatusOK then
    { ip := "", err := some (Error.New (env.StatusText res.StatusCode)), log := log }
  else
    match scanLoop res.Body.lines with
    | some v => { ip := v, err := none, log := log }
    | none =>
      match res.Body.err with
      | some e => { ip := "", err := some e, log := log }
      | none => { ip := "", err := some (Error.New "parse error: ip not found"), log := log }

/-- The function `publicIP(primary, secondary)`. -/
def publicIP (env : Env) (primary secondary : String) : IPResult :=
  let u1 := "https://" ++ primary ++ "/cdn-cgi/trace"
  let u2 := "https://" ++ secondary ++ "/cdn-cgi/trace"
  match env.Get u1 with
  | Except.ok res => readTrace env res [Call.Get u1]
  | Except.error _ =>
    match env.Get u2 with
    | Except.ok res => readTrace env res [Call.Get u1, Call.Get u2]
    | Except.error err => { ip := "", err := some err, log := [Call.Get u1, Call.Get u2] }

/-- The function `PublicIPv4()`. -/
def PublicIPv4 (env : Env) : IPResult :=
  publicIP env "1.1.1.1" "1.0.0.1"

/-- The function `PublicIPv6()`. -/
def PublicIPv6 (env : Env) : IPResult :=
  publicIP env "[2606:4700:4700::1111]" "[2606:4700:4700::1001]"

/-! ## The record locator -/

/-- The loop `for i := range recs { switch recs[i].Type ... }` of
`loadRecords`.  The error is the one returned from inside the loop, `none` when
the loop runs to its end. -/
def loadLoop (domain : String) : updater → List DNSRecord → updater × Option Error
  | up, [] => (up, none)
  | up, r :: rest =>
    if r.Typ = "A" then
      if up.a ≠ "" then
        (up, some (Error.New ("Multiple A records found for " ++ domain)))
      else
        loadLoop domain { up with a := r.ID, ipv4 := r.Content } rest
    else if r.Typ = "AAAA" then
      if up.aaaa ≠ "" then
        (up, some (Error.New ("Multiple AAAA records found for " ++ domain)))
      else
        loadLoop domain { up with aaaa := r.ID, ipv6 := r.Content } rest
    else
      loadLoop domain up rest

/-- The method `(*updater).loadRecords(domain)`: the receiver afterwards and
the returned error. -/
def loadRecords (api : API) (up : updater) (domain : String) : updater × Option Error :=
  match api.DNSRecords up.zone { ID := "", Typ := "", Name := domain, Content := "" } with
  | Except.error err => (up, some err)
  | Except.ok recs =>
    match loadLoop domain up recs with
    | (up1, some err) => (up1, some err)
    | (up1, none) =>
      if up1.a = "" ∧ up1.aaaa = "" then
        (up1, some (Error.New ("No A/AAAA records found for " ++ domain)))
      else
        (up1, none)

/-! ## The reconciler -/

/-- What `updateRecord` hands back, and the provider calls it made. -/
structure WriteResult where
  err : Option Error
  log : List Call
deriving DecidableEq, Repr

/-- The method `(*updater).updateRecord(record, content)`, called from the block
`f` of `updateRecords` on the provider `api`. -/
def updateRecord (api : API) (f : Family) (zone record content : String) : WriteResult :=
  match api.DNSRecord zone record with
  | Except.error err => { err := some err, log := [Call.DNSRecord f zone record] }
  | Except.ok rec =>
    if rec.Content ≠ content then
      let rec1 := { rec with Content := content }
      let path := "/zones/" ++ zone ++ "/dns_records/" ++ record
      { err := api.Raw "PATCH" path rec1,
        log := [Call.DNSRecord f zone record, Call.Raw f "PATCH" path rec1] }
    else
      { err := none, log := [Call.DNSRecord f zone record] }

/-- What one call of `updateRecords` leaves behind: the receiver, the returned
error, the value of the local `e` at the end of the A block and of the AAAA
block (`none` also when the block is skipped), and the calls made, in order. -/
structure Result where
  up : updater
  err : Option Error
  e4 : Option Error
  e6 : Option Error
  log : List Call
deriving DecidableEq, Repr

/-- The first block of `updateRecords`, `if up.a != "" { ... }`, run on the
result so far. -/
def blockA (env : Env) (s : Result) : Result :=
  if s.up.a ≠ "" then
    let r := PublicIPv4 env
    let w : WriteResult :=
      if r.err = none ∧ r.ip ≠ s.up.ipv4 then updateRecord env.apiA Family.A s.up.zone s.up.a r.ip
      else { err := r.err, log := [] }
    if w.err = none then
      { s with up := { s.up with ipv4 := r.ip }, log := s.log ++ r.log ++ w.log }
    else
      { s with err := w.err, e4 := w.err, log := s.log ++ r.log ++ w.log }
  else s

/-- The second block of `updateRecords`, `if up.aaaa != "" { ... }`, run on the
result so far. -/
def blockAAAA (env : Env) (s : Result) : Result :=
  if s.up.aaaa ≠ "" then
    let r := PublicIPv6 env
    let w : WriteResult :=
      if r.err = none ∧ r.ip ≠ s.up.ipv6 then updateRecord env.apiAAAA Family.AAAA s.up.zone s.up.aaaa r.ip
      else { err := r.err, log := [] }
    if w.err = none then
      { s with up := { s.up with ipv6 := r.ip }, log := s.log ++ r.log ++ w.log }
    else
      { s with err := w.err, e6 := w.err, log := s.log ++ r.log ++ w.log }
  else s

/-- The method `(*updater).updateRecords()`: the named result `err` starts as
`nil`, then the A block and the AAAA block run in this order. -/
def updateRecords (env : Env) (up : updater) : Result :=
  blockAAAA env (blockA env { up := up, err := none, e4 := none, e6 := none, log := [] })

/-! ## Vocabulary of the statements -/

/-- The id of the tracked record of a type; the empty string when none is tracked. -/
def updater.id (up : updater) : Family → String
  | Family.A => up.a
  | Family.AAAA => up.aaaa

/-- The content last seen or last written for the record of a type. -/
def updater.lastKnownContent (up : updater) : Family → String
  | Family.A => up.ipv4
  | Family.AAAA => up.ipv6

/-- The resolver `updateRecords` calls for a type. -/
def resolve (env : Env) : Family → IPResult
  | Family.A => PublicIPv4 env
  | Family.AAAA => PublicIPv6 env

/-- The provider as it answers during the block of a type. -/
def Env.api (env : Env) : Family → API
  | Family.A => env.apiA
  | Family.AAAA => env.apiAAAA

/-- The error of the block of a type. -/
def Result.e (r : Result) : Family → Option Error
  | Family.A => r.e4
  | Family.AAAA => r.e6

/-- The block a provider call was made from; `none` for a request to the
trace service. -/
def Call.family : Call → Option Family
  | Call.Get _ => none
  | Call.DNSRecord f _ _ => some f
  | Call.Raw f _ _ _ => some f

/-- The provider calls of a log that were made from the block of a type. -/
def providerCalls (f : Family) (log : List Call) : List Call :=
  log.filter (fun c => decide (c.family = some f))

/-- The path of the PATCH request for a record. -/
def patchPath (zone record : String) : String :=
  "/zones/" ++ zone ++ "/dns_records/" ++ record

/-- The URL `publicIP` requests from a trace endpoint. -/
def traceURL (host : String) : String :=
  "https://" ++ host ++ "/cdn-cgi/trace"

/-- The error `publicIP` returns when the scanner ends without having met an
`ip` line. -/
def notFound : Error :=
  Error.New "parse error: ip not found"

/-- The filter `cloudflare.DNSRecord{Name: domain}` passed to `DNSRecords`. -/
def nameFilter (domain : String) : DNSRecord :=
  { ID := "", Typ := "", Name := domain, Content := "" }

/-- The two errors `loadRecords` returns on a second record of one type. -/
def DuplicateRecordError (domain : String) (e : Error) : Prop :=
  e = Error.New ("Multiple A records found for " ++ domain)
    ∨ e = Error.New ("Multiple AAAA records found for " ++ domain)

instance (domain : String) (e : Error) : Decidable (DuplicateRecordError domain e) := by
  unfold DuplicateRecordError
  exact inferInstance

/-- The error `loadRecords` returns when it tracks neither type. -/
def NoRecordsError (domain : String) : Error :=
  Error.New ("No A/AAAA records found for " ++ domain)

/-- The other record type. -/
def Family.other : Family → Family
  | Family.A => Family.AAAA
  | Family.AAAA => Family.A

/-- The value of the `Type` field of the records of a type. -/
def Family.typeName : Family → String
  | Family.A => "A"
  | Family.AAAA => "AAAA"

/-- The two URLs the resolver of a type can request: primary, secondary. -/
def resolverURLs : Family → List String
  | Family.A => [traceURL "1.1.1.1", traceURL "1.0.0.1"]
  | Family.AAAA => [traceURL "[2606:4700:4700::1111]", traceURL "[2606:4700:4700::1001]"]

/-- The key of a line in the words of the trace format, `key=value`: the text
before the first `=`; a line without `=` has no key. -/
def lineKey (line : String) : Option String :=
  if '=' ∈ line.data then some (String.mk (line.data.takeWhile (fun c => decide (c ≠ '='))))
  else none

/-- The value of a line in the words of the trace format: the text after the
first `=`. -/
def lineValue (line : String) : String :=
  String.mk ((line.data.dropWhile (fun c => decide (c ≠ '='))).drop 1)

/-! ## The transport under `http.Get` -/

/-- What one endpoint itself sends back to one request: the status, the
`Location` header (empty when there is none) and the body. -/
structure Answer where
  StatusCode : Int
  Location : String
  Body : Body
deriving DecidableEq, Repr

/-- The network under `http.Get`: for each URL, a transport failure or the
answer of the endpoint at that URL. -/
structure Net where
  roundTrip : String → Except Error Answer

/-- The statuses on which the client of net/http follows the `Location`
header: 301, 302, 303, 307 and 308. -/
def isRedirect (code : Int) : Bool :=
  code = 301 || code = 302 || code = 303 || code = 307 || code = 308

/-- What `http.Get(url)` hands back over a network, with the URLs it
contacted, in order.  A transport failure is an error; an answer with a redirect
status and a `Location` is followed, `fuel` times at most, after which the
client gives up with an error; any other answer is handed back as the response,
whatever its status. -/
def getFollowing (net : Net) : Nat → String → Except Error Response × List String
  | 0, url =>
    match net.roundTrip url with
    | Except.error e => (Except.error e, [url])
    | Except.ok a =>
      if isRedirect a.StatusCode = true ∧ a.Location ≠ "" then
        (Except.error (Error.lib "stopped after 10 redirects"), [url])
      else (Except.ok { StatusCode := a.StatusCode, Body := a.Body }, [url])
  | n + 1, url =>
    match net.roundTrip url with
    | Except.error e => (Except.error e, [url])
    | Except.ok a =>
      if isRedirect a.StatusCode = true ∧ a.Location ≠ "" then
        ((getFollowing net n a.Location).1, url :: (getFollowing net n a.Location).2)
      else (Except.ok { StatusCode := a.StatusCode, Body := a.Body }, [url])

/-- The result of `http.Get(url)` over a network; the default client follows
a redirect as long as fewer than ten requests have been made. -/
def Net.Get (net : Net) (url : String) : Except Error Response :=
  (getFollowing net 9 url).1

/-- The URLs `http.Get(url)` contacts over a network, in order. -/
def Net.contacted (net : Net) (url : String) : List String :=
  (getFollowing net 9 url).2

/-! ## Concrete scenarios -/

/-- A trace-service body, as the scanner cuts it, whose `ip` line carries `ip`. -/
def traceBody (ip : String) : Body :=
  { lines := ["fl=29f85", "h=1.1.1.1", "ip=" ++ ip, "ts=1700000000.123", "visit_scheme=https"],
    err := none }

/-- The answer 200 of a trace endpoint that sees the caller at `ip`. -/
def ok200 (ip : String) : Except Error Response :=
  Except.ok { StatusCode := 200, Body := traceBody ip }

/-- The transport-level failure used in the scenarios. -/
def unreachable : Error :=
  Error.lib "dial tcp: network is unreachable"

/-- A trace service whose primary IPv4 endpoint answers `v4` and whose primary
IPv6 endpoint answers `v6`; the secondary endpoints cannot be reached. -/
def traceGet (v4 v6 : Except Error Response) : String → Except Error Response :=
  fun url =>
    if url = "https://1.1.1.1/cdn-cgi/trace" then v4
    else if url = "https://[2606:4700:4700::1111]/cdn-cgi/trace" then v6
    else Except.error unreachable

/-- A provider holding the given records: a record is found by its id, and
every write is answered with `patch`. -/
def providerOf (recs : List DNSRecord) (patch : Option Error) : API :=
  { DNSRecords := fun _ flt => Except.ok (recs.filter (fun r => decide (r.Name = flt.Name))),
    DNSRecord := fun _ id =>
      match recs.find? (fun r => decide (r.ID = id)) with
      | some r => Except.ok r
      | none => Except.error (Error.lib "record not found"),
    Raw := fun _ _ _ => patch }

/-- The A record of `home.example.com` in the scenarios: id `r1`, content
`1.2.3.0`. -/
def recR1 : DNSRecord :=
  { ID := "r1", Typ := "A", Name := "home.example.com", Content := "1.2.3.0" }

/-- The AAAA record of `home.example.com` in the scenarios. -/
def recR2 : DNSRecord :=
  { ID := "r2", Typ := "AAAA", Name := "home.example.com", Content := "2001:db8::1" }

/-- The table `http.StatusText` at the codes the scenarios use. -/
def statusText : Int → String :=
  fun code => if code = 503 then "Service Unavailable" else if code = 200 then "OK" else ""

/-- The world of the first scenario: the public IPv4 address is `1.2.3.4`, the
IPv6 trace endpoints cannot be reached, the provider holds `r1` and `r2` and
accepts writes. -/
def envV4 : Env :=
  { Get := traceGet (ok200 "1.2.3.4") (Except.error unreachable),
    StatusText := statusText,
    apiA := providerOf [recR1, recR2] none,
    apiAAAA := providerOf [recR1, recR2] none }

/-- The world in which only the IPv6 address resolves, to `2001:db8::2`. -/
def envV6 : Env :=
  { Get := traceGet (Except.error unreachable) (ok200 "2001:db8::2"),
    StatusText := statusText,
    apiA := providerOf [recR1, recR2] none,
    apiAAAA := providerOf [recR1, recR2] none }

/-- The world in which both addresses resolve, to `1.2.3.4` and `2001:db8::2`,
and the provider already holds `1.2.3.4` in `r1` (it was edited out of band)
while `r2` is stale. -/
def envBoth : Env :=
  { Get := traceGet (ok200 "1.2.3.4") (ok200 "2001:db8::2"),
    StatusText := statusText,
    apiA := providerOf [{ recR1 with Content := "1.2.3.4" }, recR2] none,
    apiAAAA := providerOf [{ recR1 with Content := "1.2.3.4" }, recR2] none }

/-- The world in which the IPv4 address resolves to `1.2.3.4` but the provider
refuses the write, and the primary IPv6 trace endpoint answers 503. -/
def envFailing : Env :=
  { Get := traceGet (ok200 "1.2.3.4")
      (Except.ok { StatusCode := 503, Body := { lines := [], err := none } }),
    StatusText := statusText,
    apiA := providerOf [recR1, recR2] (some (Error.lib "HTTP status 403: forbidden")),
    apiAAAA := providerOf [recR1, recR2] (some (Error.lib "HTTP status 403: forbidden")) }

/-- A record of type A with an empty id. -/
def recNoId : DNSRecord :=
  { ID := "", Typ := "A", Name := "home.example.com", Content := "1.2.3.0" }

/-- A second A record of `home.example.com`. -/
def recR3 : DNSRecord :=
  { ID := "r3", Typ := "A", Name := "home.example.com", Content := "1.2.3.9" }

/-- A TXT record of `home.example.com`. -/
def recTxt : DNSRecord :=
  { ID := "t1", Typ := "TXT", Name := "home.example.com", Content := "v=spf1 -all" }

/-- A body that breaks off after two lines: the scanner reports the read
error once its tokens are used up. -/
def bodyCut : Body :=
  { lines := ["fl=29f85", "h=1.1.1.1"], err := some (Error.lib "unexpected EOF") }

/-- The world in which the primary IPv4 trace endpoint answers 200 and the
body breaks off before the `ip` line. -/
def envCut : Env :=
  { Get := traceGet (Except.ok { StatusCode := 200, Body := bodyCut }) (Except.error unreachable),
    StatusText := statusText,
    apiA := providerOf [recR1, recR2] none,
    apiAAAA := providerOf [recR1, recR2] none }

/-- A body with two `ip` lines of different values. -/
def bodyTwoIp : Body :=
  { lines := ["fl=29f85", "ip=1.2.3.4", "ip=5.6.7.8"], err := none }

/-- The world in which the primary IPv4 trace endpoint cannot be reached and
the secondary one answers 200 with the given body; the IPv6 endpoints cannot be
reached. -/
def envFallback (body : Body) : Env :=
  { Get := fun url =>
      if url = "https://1.0.0.1/cdn-cgi/trace" then
        Except.ok { StatusCode := 200, Body := body }
      else Except.error unreachable,
    StatusText := statusText,
    apiA := providerOf [recR1, recR2] none,
    apiAAAA := providerOf [recR1, recR2] none }

/-- A network in which the primary IPv4 trace endpoint answers 302 with the
URL of the secondary endpoint as `Location`, and the secondary endpoint answers
200 with `ip=5.6.7.8`. -/
def netRedirect : Net :=
  { roundTrip := fun url =>
      if url = "https://1.1.1.1/cdn-cgi/trace" then
        Except.ok { StatusCode := 302, Location := "https://1.0.0.1/cdn-cgi/trace",
                    Body := { lines := [], err := none } }
      else if url = "https://1.0.0.1/cdn-cgi/trace" then
        Except.ok { StatusCode := 200, Location := "", Body := traceBody "5.6.7.8" }
      else Except.error unreachable }

/-- The world in which `http.Get` runs over the network `net`. -/
def envOver (net : Net) : Env :=
  { Get := net.Get,
    StatusText := statusText,
    apiA := providerOf [recR1, recR2] none,
    apiAAAA := providerOf [recR1, recR2] none }

/-- An updater that tracks only the A record `r1`, last seen at `1.2.3.0`. -/
def upA : updater :=
  { zone := "z1", a := "r1", aaaa := "", ipv4 := "1.2.3.0", ipv6 := "" }

/-- An updater that tracks `r1` and `r2`. -/
def upBoth : updater :=
  { zone := "z1", a := "r1", aaaa := "r2", ipv4 := "1.2.3.0", ipv6 := "2001:db8::1" }

/-! ## Lemmas on the two blocks -/

theorem blockA_untracked (env : Env) (s : Result) (h : s.up.a = "") : blockA env s = s := by
  simp [blockA, h]

theorem blockAAAA_untracked (env : Env) (s : Result) (h : s.up.aaaa = "") :
    blockAAAA env s = s := by
  simp [blockAAAA, h]

/-! ### Logs -/

theorem readTrace_log (env : Env) (res : Response) (log : List Call) :
    (readTrace env res log).log = log := by
  unfold readTrace
  split_ifs
  · rfl
  · split
    · rfl
    · split <;> rfl

theorem publicIP_family (env : Env) (p q : String) :
    ∀ c ∈ (publicIP env p q).log, c.family = none := by
  intro c hc
  unfold publicIP at hc
  simp only at hc
  split at hc
  · rw [readTrace_log] at hc
    simp at hc
    subst hc
    rfl
  · split at hc
    · rw [readTrace_log] at hc
      simp at hc
      rcases hc with h | h <;> subst h <;> rfl
    · simp at hc
      rcases hc with h | h <;> subst h <;> rfl

theorem updateRecord_family (api : API) (f : Family) (zone record content : String) :
    ∀ c ∈ (updateRecord api f zone record content).log, c.family = some f := by
  intro c hc
  unfold updateRecord at hc
  split at hc
  · simp at hc
    subst hc
    rfl
  · split_ifs at hc
    · simp at hc
      rcases hc with h | h <;> subst h <;> rfl
    · simp at hc
      subst hc
      rfl

theorem providerCalls_nil (f : Family) : providerCalls f [] = [] := rfl

theorem providerCalls_append (f : Family) (l₁ l₂ : List Call) :
    providerCalls f (l₁ ++ l₂) = providerCalls f l₁ ++ providerCalls f l₂ := by
  simp [providerCalls]

theorem providerCalls_publicIP (f : Family) (env : Env) (p q : String) :
    providerCalls f (publicIP env p q).log = [] := by
  unfold providerCalls
  rw [List.filter_eq_nil_iff]
  intro c hc
  simp [publicIP_family env p q c hc]

theorem providerCalls_PublicIPv4 (f : Family) (env : Env) :
    providerCalls f (PublicIPv4 env).log = [] :=
  providerCalls_publicIP f env _ _

theorem providerCalls_PublicIPv6 (f : Family) (env : Env) :
    providerCalls f (PublicIPv6 env).log = [] :=
  providerCalls_publicIP f env _ _

theorem providerCalls_updateRecord_self (api : API) (f : Family) (zone record content : String) :
    providerCalls f (updateRecord api f zone record content).log
      = (updateRecord api f zone record content).log := by
  unfold providerCalls
  rw [List.filter_eq_self]
  intro c hc
  simp [updateRecord_family api f zone record content c hc]

theorem providerCalls_updateRecord_other (api : API) (f g : Family) (hfg : g ≠ f)
    (zone record content : String) :
    providerCalls f (updateRecord api g zone record content).log = [] := by
  unfold providerCalls
  rw [List.filter_eq_nil_iff]
  intro c hc
  simp [updateRecord_family api g zone record content c hc, hfg]

/-! ### The cases of `updateRecord` -/

theorem updateRecord_read_failed (api : API) (f : Family) (zone record content : String)
    (e : Error) (h : api.DNSRecord zone record = Except.error e) :
    updateRecord api f zone record content
      = { err := some e, log := [Call.DNSRecord f zone record] } := by
  simp [updateRecord, h]

theorem updateRecord_in_place (api : API) (f : Family) (zone record content : String)
    (rec : DNSRecord) (h : api.DNSRecord zone record = Except.ok rec)
    (hc : rec.Content = content) :
    updateRecord api f zone record content
      = { err := none, log := [Call.DNSRecord f zone record] } := by
  simp [updateRecord, h, hc]

theorem updateRecord_patch (api : API) (f : Family) (zone record content : String)
    (rec : DNSRecord) (h : api.DNSRecord zone record = Except.ok rec)
    (hc : rec.Content ≠ content) :
    updateRecord api f zone record content
      = { err := api.Raw "PATCH" (patchPath zone record) { rec with Content := content },
          log := [Call.DNSRecord f zone record,
                  Call.Raw f "PATCH" (patchPath zone record) { rec with Content := content }] } := by
  simp [updateRecord, h, hc, patchPath]

/-! ### The cases of the A block -/

theorem blockA_resolve_failed (env : Env) (s : Result) (h : s.up.a ≠ "") (e : Error)
    (hres : (PublicIPv4 env).err = some e) :
    blockA env s
      = { s with err := some e, e4 := some e, log := s.log ++ (PublicIPv4 env).log } := by
  simp [blockA, h, hres]

theorem blockA_same (env : Env) (s : Result) (h : s.up.a ≠ "")
    (hres : (PublicIPv4 env).err = none) (hip : (PublicIPv4 env).ip = s.up.ipv4) :
    blockA env s = { s with log := s.log ++ (PublicIPv4 env).log } := by
  simp [blockA, h, hres, hip]

theorem blockA_write_ok (env : Env) (s : Result) (h : s.up.a ≠ "")
    (hres : (PublicIPv4 env).err = none) (hip : (PublicIPv4 env).ip ≠ s.up.ipv4)
    (hw : (updateRecord env.apiA Family.A s.up.zone s.up.a (PublicIPv4 env).ip).err = none) :
    blockA env s
      = { s with
          up := { s.up with ipv4 := (PublicIPv4 env).ip },
          log := s.log ++ (PublicIPv4 env).log
            ++ (updateRecord env.apiA Family.A s.up.zone s.up.a (PublicIPv4 env).ip).log } := by
  simp [blockA, h, hres, hip, hw]

theorem blockA_write_failed (env : Env) (s : Result) (h : s.up.a ≠ "")
    (hres : (PublicIPv4 env).err = none) (hip : (PublicIPv4 env).ip ≠ s.up.ipv4) (e : Error)
    (hw : (updateRecord env.apiA Family.A s.up.zone s.up.a (PublicIPv4 env).ip).err = some e) :
    blockA env s
      = { s with
          err := some e, e4 := some e,
          log := s.log ++ (PublicIPv4 env).log
            ++ (updateRecord env.apiA Family.A s.up.zone s.up.a (PublicIPv4 env).ip).log } := by
  simp [blockA, h, hres, hip, hw]

/-! ### The cases of the AAAA block -/

theorem blockAAAA_resolve_failed (env : Env) (s : Result) (h : s.up.aaaa ≠ "") (e : Error)
    (hres : (PublicIPv6 env).err = some e) :
    blockAAAA env s
      = { s with err := some e, e6 := some e, log := s.log ++ (PublicIPv6 env).log } := by
  simp [blockAAAA, h, hres]

theorem blockAAAA_same (env : Env) (s : Result) (h : s.up.aaaa ≠ "")
    (hres : (PublicIPv6 env).err = none) (hip : (PublicIPv6 env).ip = s.up.ipv6) :
    blockAAAA env s = { s with log := s.log ++ (PublicIPv6 env).log } := by
  simp [blockAAAA, h, hres, hip]

theorem blockAAAA_write_ok (env : Env) (s : Result) (h : s.up.aaaa ≠ "")
    (hres : (PublicIPv6 env).err = none) (hip : (PublicIPv6 env).ip ≠ s.up.ipv6)
    (hw : (updateRecord env.apiAAAA Family.AAAA s.up.zone s.up.aaaa (PublicIPv6 env).ip).err
      = none) :
    blockAAAA env s
      = { s with
          up := { s.up with ipv6 := (PublicIPv6 env).ip },
          log := s.log ++ (PublicIPv6 env).log
            ++ (updateRecord env.apiAAAA Family.AAAA s.up.zone s.up.aaaa (PublicIPv6 env).ip).log } := by
  simp [blockAAAA, h, hres, hip, hw]

theorem blockAAAA_write_failed (env : Env) (s : Result) (h : s.up.aaaa ≠ "")
    (hres : (PublicIPv6 env).err = none) (hip : (PublicIPv6 env).ip ≠ s.up.ipv6) (e : Error)
    (hw : (updateRecord env.apiAAAA Family.AAAA s.up.zone s.up.aaaa (PublicIPv6 env).ip).err
      = some e) :
    blockAAAA env s
      = { s with
          err := some e, e6 := some e,
          log := s.log ++ (PublicIPv6 env).log
            ++ (updateRecord env.apiAAAA Family.AAAA s.up.zone s.up.aaaa (PublicIPv6 env).ip).log } := by
  simp [blockAAAA, h, hres, hip, hw]

/-! ### What a block leaves alone -/

theorem blockA_frame (env : Env) (s : Result) :
    (blockA env s).up.zone = s.up.zone ∧ (blockA env s).up.a = s.up.a
      ∧ (blockA env s).up.aaaa = s.up.aaaa ∧ (blockA env s).up.ipv6 = s.up.ipv6
      ∧ (blockA env s).e6 = s.e6
      ∧ providerCalls Family.AAAA (blockA env s).log = providerCalls Family.AAAA s.log := by
  by_cases h : s.up.a = ""
  · rw [blockA_untracked env s h]
    simp
  · cases hres : (PublicIPv4 env).err with
    | some e =>
      rw [blockA_resolve_failed env s h e hres]
      simp [providerCalls_append, PublicIPv4, providerCalls_publicIP]
    | none =>
      by_cases hip : (PublicIPv4 env).ip = s.up.ipv4
      · rw [blockA_same env s h hres hip]
        simp [providerCalls_append, PublicIPv4, providerCalls_publicIP]
      · cases hw : (updateRecord env.apiA Family.A s.up.zone s.up.a (PublicIPv4 env).ip).err with
        | none =>
          rw [blockA_write_ok env s h hres hip hw]
          simp [providerCalls_append, PublicIPv4, providerCalls_publicIP,
            providerCalls_updateRecord_other]
        | some e =>
          rw [blockA_write_failed env s h hres hip e hw]
          simp [providerCalls_append, PublicIPv4, providerCalls_publicIP,
            providerCalls_updateRecord_other]

theorem blockAAAA_frame (env : Env) (s : Result) :
    (blockAAAA env s).up.zone = s.up.zone ∧ (blockAAAA env s).up.a = s.up.a
      ∧ (blockAAAA env s).up.aaaa = s.up.aaaa ∧ (blockAAAA env s).up.ipv4 = s.up.ipv4
      ∧ (blockAAAA env s).e4 = s.e4
      ∧ providerCalls Family.A (blockAAAA env s).log = providerCalls Family.A s.log := by
  by_cases h : s.up.aaaa = ""
  · rw [blockAAAA_untracked env s h]
    simp
  · cases hres : (PublicIPv6 env).err with
    | some e =>
      rw [blockAAAA_resolve_failed env s h e hres]
      simp [providerCalls_append, PublicIPv6, providerCalls_publicIP]
    | none =>
      by_cases hip : (PublicIPv6 env).ip = s.up.ipv6
      · rw [blockAAAA_same env s h hres hip]
        simp [providerCalls_append, PublicIPv6, providerCalls_publicIP]
      · cases hw : (updateRecord env.apiAAAA Family.AAAA s.up.zone s.up.aaaa
            (PublicIPv6 env).ip).err with
        | none =>
          rw [blockAAAA_write_ok env s h hres hip hw]
          simp [providerCalls_append, PublicIPv6, providerCalls_publicIP,
            providerCalls_updateRecord_other]
        | some e =>
          rw [blockAAAA_write_failed env s h hres hip e hw]
          simp [providerCalls_append, PublicIPv6, providerCalls_publicIP,
            providerCalls_updateRecord_other]

/-- The error the AAAA block leaves in the named result: its own when it has
one, the earlier one otherwise. -/
theorem blockAAAA_err (env : Env) (s : Result) (h6 : s.e6 = none) :
    (blockAAAA env s).err
      = match (blockAAAA env s).e6 with
        | some e => some e
        | none => s.err := by
  by_cases h : s.up.aaaa = ""
  · rw [blockAAAA_untracked env s h]
    simp [h6]
  · cases hres : (PublicIPv6 env).err with
    | some e =>
      rw [blockAAAA_resolve_failed env s h e hres]
    | none =>
      by_cases hip : (PublicIPv6 env).ip = s.up.ipv6
      · rw [blockAAAA_same env s h hres hip]
        simp [h6]
      · cases hw : (updateRecord env.apiAAAA Family.AAAA s.up.zone s.up.aaaa
            (PublicIPv6 env).ip).err with
        | none =>
          rw [blockAAAA_write_ok env s h hres hip hw]
          simp [h6]
        | some e =>
          rw [blockAAAA_write_failed env s h hres hip e hw]

/-- The error the A block leaves in the named result. -/
theorem blockA_err (env : Env) (s : Result) (h4 : s.e4 = none) :
    (blockA env s).err
      = match (blockA env s).e4 with
        | some e => some e
        | none => s.err := by
  by_cases h : s.up.a = ""
  · rw [blockA_untracked env s h]
    simp [h4]
  · cases hres : (PublicIPv4 env).err with
    | some e =>
      rw [blockA_resolve_failed env s h e hres]
    | none =>
      by_cases hip : (PublicIPv4 env).ip = s.up.ipv4
      · rw [blockA_same env s h hres hip]
        simp [h4]
      · cases hw : (updateRecord env.apiA Family.A s.up.zone s.up.a (PublicIPv4 env).ip).err with
        | none =>
          rw [blockA_write_ok env s h hres hip hw]
          simp [h4]
        | some e =>
          rw [blockA_write_failed env s h hres hip e hw]


/-! ### When a block succeeds, when it fails -/

theorem updateRecord_ok (api : API) (f : Family) (zone record content : String)
    (h : (updateRecord api f zone record content).err = none) :
    ∃ rec, api.DNSRecord zone record = Except.ok rec
      ∧ (rec.Content = content
        ∨ api.Raw "PATCH" (patchPath zone record) { rec with Content := content } = none) := by
  cases hread : api.DNSRecord zone record with
  | error e =>
    rw [updateRecord_read_failed api f zone record content e hread] at h
    simp at h
  | ok rec =>
    refine ⟨rec, rfl, ?_⟩
    by_cases hc : rec.Content = content
    · exact Or.inl hc
    · rw [updateRecord_patch api f zone record content rec hread hc] at h
      exact Or.inr h

theorem blockA_changed (env : Env) (s : Result) (h : (blockA env s).up.ipv4 ≠ s.up.ipv4) :
    s.up.a ≠ "" ∧ (PublicIPv4 env).err = none ∧ (blockA env s).up.ipv4 = (PublicIPv4 env).ip
      ∧ (updateRecord env.apiA Family.A s.up.zone s.up.a (PublicIPv4 env).ip).err = none := by
  by_cases ha : s.up.a = ""
  · rw [blockA_untracked env s ha] at h
    exact absurd rfl h
  · cases hres : (PublicIPv4 env).err with
    | some e =>
      rw [blockA_resolve_failed env s ha e hres] at h
      exact absurd rfl h
    | none =>
      by_cases hip : (PublicIPv4 env).ip = s.up.ipv4
      · rw [blockA_same env s ha hres hip] at h
        exact absurd rfl h
      · cases hw : (updateRecord env.apiA Family.A s.up.zone s.up.a (PublicIPv4 env).ip).err with
        | none =>
          rw [blockA_write_ok env s ha hres hip hw]
          exact ⟨ha, rfl, rfl, rfl⟩
        | some e =>
          rw [blockA_write_failed env s ha hres hip e hw] at h
          exact absurd rfl h

theorem blockAAAA_changed (env : Env) (s : Result)
    (h : (blockAAAA env s).up.ipv6 ≠ s.up.ipv6) :
    s.up.aaaa ≠ "" ∧ (PublicIPv6 env).err = none
      ∧ (blockAAAA env s).up.ipv6 = (PublicIPv6 env).ip
      ∧ (updateRecord env.apiAAAA Family.AAAA s.up.zone s.up.aaaa (PublicIPv6 env).ip).err
          = none := by
  by_cases ha : s.up.aaaa = ""
  · rw [blockAAAA_untracked env s ha] at h
    exact absurd rfl h
  · cases hres : (PublicIPv6 env).err with
    | some e =>
      rw [blockAAAA_resolve_failed env s ha e hres] at h
      exact absurd rfl h
    | none =>
      by_cases hip : (PublicIPv6 env).ip = s.up.ipv6
      · rw [blockAAAA_same env s ha hres hip] at h
        exact absurd rfl h
      · cases hw : (updateRecord env.apiAAAA Family.AAAA s.up.zone s.up.aaaa
            (PublicIPv6 env).ip).err with
        | none =>
          rw [blockAAAA_write_ok env s ha hres hip hw]
          exact ⟨ha, rfl, rfl, rfl⟩
        | some e =>
          rw [blockAAAA_write_failed env s ha hres hip e hw] at h
          exact absurd rfl h

theorem blockA_failed (env : Env) (s : Result) (e : Error) (h4 : s.e4 = none)
    (h : (blockA env s).e4 = some e) :
    (blockA env s).up = s.up ∧ (blockA env s).err = some e := by
  by_cases ha : s.up.a = ""
  · rw [blockA_untracked env s ha, h4] at h
    simp at h
  · cases hres : (PublicIPv4 env).err with
    | some e1 =>
      rw [blockA_resolve_failed env s ha e1 hres] at h ⊢
      exact ⟨rfl, h⟩
    | none =>
      by_cases hip : (PublicIPv4 env).ip = s.up.ipv4
      · rw [blockA_same env s ha hres hip] at h
        rw [h4] at h
        simp at h
      · cases hw : (updateRecord env.apiA Family.A s.up.zone s.up.a (PublicIPv4 env).ip).err with
        | none =>
          rw [blockA_write_ok env s ha hres hip hw] at h
          rw [h4] at h
          simp at h
        | some e1 =>
          rw [blockA_write_failed env s ha hres hip e1 hw] at h ⊢
          exact ⟨rfl, h⟩

theorem blockAAAA_failed (env : Env) (s : Result) (e : Error) (h6 : s.e6 = none)
    (h : (blockAAAA env s).e6 = some e) :
    (blockAAAA env s).up = s.up ∧ (blockAAAA env s).err = some e := by
  by_cases ha : s.up.aaaa = ""
  · rw [blockAAAA_untracked env s ha, h6] at h
    simp at h
  · cases hres : (PublicIPv6 env).err with
    | some e1 =>
      rw [blockAAAA_resolve_failed env s ha e1 hres] at h ⊢
      exact ⟨rfl, h⟩
    | none =>
      by_cases hip : (PublicIPv6 env).ip = s.up.ipv6
      · rw [blockAAAA_same env s ha hres hip] at h
        rw [h6] at h
        simp at h
      · cases hw : (updateRecord env.apiAAAA Family.AAAA s.up.zone s.up.aaaa
            (PublicIPv6 env).ip).err with
        | none =>
          rw [blockAAAA_write_ok env s ha hres hip hw] at h
          rw [h6] at h
          simp at h
        | some e1 =>
          rw [blockAAAA_write_failed env s ha hres hip e1 hw] at h ⊢
          exact ⟨rfl, h⟩

theorem blockA_write (env : Env) (s : Result) (h : s.up.a ≠ "")
    (hres : (PublicIPv4 env).err = none) (hip : (PublicIPv4 env).ip ≠ s.up.ipv4) :
    providerCalls Family.A (blockA env s).log
        = providerCalls Family.A s.log
          ++ (updateRecord env.apiA Family.A s.up.zone s.up.a (PublicIPv4 env).ip).log
      ∧ ((updateRecord env.apiA Family.A s.up.zone s.up.a (PublicIPv4 env).ip).err = none →
          (blockA env s).up.ipv4 = (PublicIPv4 env).ip ∧ (blockA env s).e4 = s.e4) := by
  cases hw : (updateRecord env.apiA Family.A s.up.zone s.up.a (PublicIPv4 env).ip).err with
  | none =>
    rw [blockA_write_ok env s h hres hip hw]
    simp [providerCalls_append, providerCalls_PublicIPv4, providerCalls_updateRecord_self]
  | some e =>
    rw [blockA_write_failed env s h hres hip e hw]
    simp [providerCalls_append, providerCalls_PublicIPv4, providerCalls_updateRecord_self]

theorem blockAAAA_write (env : Env) (s : Result) (h : s.up.aaaa ≠ "")
    (hres : (PublicIPv6 env).err = none) (hip : (PublicIPv6 env).ip ≠ s.up.ipv6) :
    providerCalls Family.AAAA (blockAAAA env s).log
        = providerCalls Family.AAAA s.log
          ++ (updateRecord env.apiAAAA Family.AAAA s.up.zone s.up.aaaa (PublicIPv6 env).ip).log
      ∧ ((updateRecord env.apiAAAA Family.AAAA s.up.zone s.up.aaaa (PublicIPv6 env).ip).err
            = none →
          (blockAAAA env s).up.ipv6 = (PublicIPv6 env).ip ∧ (blockAAAA env s).e6 = s.e6) := by
  cases hw : (updateRecord env.apiAAAA Family.AAAA s.up.zone s.up.aaaa
      (PublicIPv6 env).ip).err with
  | none =>
    rw [blockAAAA_write_ok env s h hres hip hw]
    simp [providerCalls_append, providerCalls_PublicIPv6, providerCalls_updateRecord_self]
  | some e =>
    rw [blockAAAA_write_failed env s h hres hip e hw]
    simp [providerCalls_append, providerCalls_PublicIPv6, providerCalls_updateRecord_self]

/-! ### The loop of `loadRecords` -/

theorem loadLoop_cons_A_dup (domain : String) (up : updater) (r : DNSRecord)
    (rest : List DNSRecord) (hA : r.Typ = "A") (ha : up.a ≠ "") :
    loadLoop domain up (r :: rest)
      = (up, some (Error.New ("Multiple A records found for " ++ domain))) := by
  simp [loadLoop, hA, ha]

theorem loadLoop_cons_A (domain : String) (up : updater) (r : DNSRecord)
    (rest : List DNSRecord) (hA : r.Typ = "A") (ha : up.a = "") :
    loadLoop domain up (r :: rest)
      = loadLoop domain { up with a := r.ID, ipv4 := r.Content } rest := by
  simp [loadLoop, hA, ha]

theorem loadLoop_cons_AAAA_dup (domain : String) (up : updater) (r : DNSRecord)
    (rest : List DNSRecord) (hA : r.Typ = "AAAA") (ha : up.aaaa ≠ "") :
    loadLoop domain up (r :: rest)
      = (up, some (Error.New ("Multiple AAAA records found for " ++ domain))) := by
  simp [loadLoop, hA, ha]

theorem loadLoop_cons_AAAA (domain : String) (up : updater) (r : DNSRecord)
    (rest : List DNSRecord) (hA : r.Typ = "AAAA") (ha : up.aaaa = "") :
    loadLoop domain up (r :: rest)
      = loadLoop domain { up with aaaa := r.ID, ipv6 := r.Content } rest := by
  simp [loadLoop, hA, ha]

theorem loadLoop_cons_other (domain : String) (up : updater) (r : DNSRecord)
    (rest : List DNSRecord) (hA : r.Typ ≠ "A") (hAAAA : r.Typ ≠ "AAAA") :
    loadLoop domain up (r :: rest) = loadLoop domain up rest := by
  simp [loadLoop, hA, hAAAA]

theorem loadLoop_other (domain : String) (up : updater) (recs : List DNSRecord)
    (h : ∀ r ∈ recs, r.Typ ≠ "A" ∧ r.Typ ≠ "AAAA") :
    loadLoop domain up recs = (up, none) := by
  induction recs with
  | nil => rfl
  | cons r rest ih =>
    have hr := h r (List.mem_cons_self r rest)
    rw [loadLoop_cons_other domain up r rest hr.1 hr.2]
    exact ih (fun x hx => h x (List.mem_cons_of_mem r hx))

theorem loadLoop_err_duplicate (domain : String) (recs : List DNSRecord) :
    ∀ (up : updater) (e : Error), (loadLoop domain up recs).2 = some e →
      DuplicateRecordError domain e := by
  induction recs with
  | nil =>
    intro up e h
    simp [loadLoop] at h
  | cons r rest ih =>
    intro up e h
    by_cases hA : r.Typ = "A"
    · by_cases ha : up.a = ""
      · rw [loadLoop_cons_A domain up r rest hA ha] at h
        exact ih _ e h
      · rw [loadLoop_cons_A_dup domain up r rest hA ha] at h
        simp at h
        exact Or.inl h.symm
    · by_cases hAAAA : r.Typ = "AAAA"
      · by_cases ha : up.aaaa = ""
        · rw [loadLoop_cons_AAAA domain up r rest hAAAA ha] at h
          exact ih _ e h
        · rw [loadLoop_cons_AAAA_dup domain up r rest hAAAA ha] at h
          simp at h
          exact Or.inr h.symm
      · rw [loadLoop_cons_other domain up r rest hA hAAAA] at h
        exact ih _ e h

theorem loadLoop_append (domain : String) (l₁ l₂ : List DNSRecord) :
    ∀ up : updater, loadLoop domain up (l₁ ++ l₂)
      = match loadLoop domain up l₁ with
        | (up1, some e) => (up1, some e)
        | (up1, none) => loadLoop domain up1 l₂ := by
  induction l₁ with
  | nil =>
    intro up
    simp [loadLoop]
  | cons r rest ih =>
    intro up
    simp only [List.cons_append]
    by_cases hA : r.Typ = "A"
    · by_cases ha : up.a = ""
      · rw [loadLoop_cons_A domain up r _ hA ha, loadLoop_cons_A domain up r _ hA ha]
        exact ih _
      · rw [loadLoop_cons_A_dup domain up r _ hA ha, loadLoop_cons_A_dup domain up r _ hA ha]
    · by_cases hAAAA : r.Typ = "AAAA"
      · by_cases ha : up.aaaa = ""
        · rw [loadLoop_cons_AAAA domain up r _ hAAAA ha,
            loadLoop_cons_AAAA domain up r _ hAAAA ha]
          exact ih _
        · rw [loadLoop_cons_AAAA_dup domain up r _ hAAAA ha,
            loadLoop_cons_AAAA_dup domain up r _ hAAAA ha]
      · rw [loadLoop_cons_other domain up r _ hA hAAAA,
          loadLoop_cons_other domain up r _ hA hAAAA]
        exact ih _

theorem loadLoop_second_A (domain : String) (recs : List DNSRecord) :
    ∀ up : updater, up.a ≠ "" → (∃ r ∈ recs, r.Typ = "A") →
      ∃ e, (loadLoop domain up recs).2 = some e := by
  induction recs with
  | nil =>
    intro up _ h
    obtain ⟨r, hr, -⟩ := h
    cases hr
  | cons r rest ih =>
    intro up ha h
    by_cases hA : r.Typ = "A"
    · rw [loadLoop_cons_A_dup domain up r rest hA ha]
      exact ⟨_, rfl⟩
    · have hrest : ∃ x ∈ rest, x.Typ = "A" := by
        obtain ⟨x, hx, hxA⟩ := h
        rcases List.mem_cons.mp hx with rfl | hx
        · exact absurd hxA hA
        · exact ⟨x, hx, hxA⟩
      by_cases hAAAA : r.Typ = "AAAA"
      · by_cases h6 : up.aaaa = ""
        · rw [loadLoop_cons_AAAA domain up r rest hAAAA h6]
          exact ih { up with aaaa := r.ID, ipv6 := r.Content } ha hrest
        · rw [loadLoop_cons_AAAA_dup domain up r rest hAAAA h6]
          exact ⟨_, rfl⟩
      · rw [loadLoop_cons_other domain up r rest hA hAAAA]
        exact ih up ha hrest

theorem loadLoop_single_A (domain : String) (recs : List DNSRecord) :
    ∀ up : updater, up.aaaa = "" →
      recs.countP (fun r => decide (r.Typ = "AAAA")) = 0 →
      (∀ r ∈ recs, r.Typ = "A" → r.ID ≠ "") →
      (recs.countP (fun r => decide (r.Typ = "A")) = 0 → loadLoop domain up recs = (up, none))
      ∧ (up.a = "" → recs.countP (fun r => decide (r.Typ = "A")) = 1 →
          ∃ up1, loadLoop domain up recs = (up1, none) ∧ up1.a ≠ "" ∧ up1.aaaa = "") := by
  induction recs with
  | nil =>
    intro up _ _ _
    exact ⟨fun _ => rfl, fun _ h => by simp at h⟩
  | cons r rest ih =>
    intro up haaaa h6 hid
    have hid1 : ∀ x ∈ rest, x.Typ = "A" → x.ID ≠ "" :=
      fun x hx => hid x (List.mem_cons_of_mem r hx)
    by_cases hA : r.Typ = "A"
    · have hne : r.Typ ≠ "AAAA" := by rw [hA]; decide
      have h61 : rest.countP (fun r => decide (r.Typ = "AAAA")) = 0 := by
        simpa [List.countP_cons, hne] using h6
      constructor
      · intro h0
        simp [List.countP_cons, hA] at h0
      · intro ha h1
        have h0 : rest.countP (fun r => decide (r.Typ = "A")) = 0 := by
          simpa [List.countP_cons, hA] using h1
        have hrid := hid r (List.mem_cons_self r rest) hA
        have := (ih { up with a := r.ID, ipv4 := r.Content } haaaa h61 hid1).1 h0
        refine ⟨{ up with a := r.ID, ipv4 := r.Content }, ?_, hrid, haaaa⟩
        rw [loadLoop_cons_A domain up r rest hA ha]
        exact this
    · have hne : r.Typ ≠ "AAAA" := by
        intro h
        simp [List.countP_cons, h] at h6
      have h61 : rest.countP (fun r => decide (r.Typ = "AAAA")) = 0 := by
        simpa [List.countP_cons, hne] using h6
      rw [loadLoop_cons_other domain up r rest hA hne]
      obtain ⟨ih0, ih1⟩ := ih up haaaa h61 hid1
      constructor
      · intro h0
        apply ih0
        simpa [List.countP_cons, hA] using h0
      · intro ha h1
        apply ih1 ha
        simpa [List.countP_cons, hA] using h1

/-! ### From the loop to `loadRecords` -/

theorem loadRecords_of_loop_err (api : API) (zone domain : String) (recs : List DNSRecord)
    (e : Error)
    (hlist : api.DNSRecords zone (nameFilter domain) = Except.ok recs)
    (h : (loadLoop domain (updater.fresh zone) recs).2 = some e) :
    (loadRecords api (updater.fresh zone) domain).2 = some e := by
  have hz : (updater.fresh zone).zone = zone := rfl
  unfold loadRecords
  rw [hz]
  have hlist1 : api.DNSRecords zone { ID := "", Typ := "", Name := domain, Content := "" }
      = Except.ok recs := hlist
  rw [hlist1]
  rcases hp : loadLoop domain (updater.fresh zone) recs with ⟨up1, o⟩
  rw [hp] at h
  simp only at h
  subst h
  simp only [hp]

theorem loadRecords_of_loop_ok (api : API) (zone domain : String) (recs : List DNSRecord)
    (up1 : updater)
    (hlist : api.DNSRecords zone (nameFilter domain) = Except.ok recs)
    (h : loadLoop domain (updater.fresh zone) recs = (up1, none)) :
    loadRecords api (updater.fresh zone) domain
      = if up1.a = "" ∧ up1.aaaa = "" then (up1, some (NoRecordsError domain))
        else (up1, none) := by
  have hz : (updater.fresh zone).zone = zone := rfl
  unfold loadRecords
  rw [hz]
  have hlist1 : api.DNSRecords zone { ID := "", Typ := "", Name := domain, Content := "" }
      = Except.ok recs := hlist
  rw [hlist1]
  simp only [h]
  rfl

/-! ### Lines of the trace format -/

theorem ip_line_chars (cs : List Char) :
    ('=' ∈ cs ∧ cs.takeWhile (fun c => decide (c ≠ '=')) = ['i', 'p'])
      ↔ ∃ rest, cs = 'i' :: 'p' :: '=' :: rest := by
  constructor
  · rintro ⟨hmem, htake⟩
    match cs, hmem, htake with
    | c1 :: c2 :: c3 :: rest, hmem, htake =>
      by_cases h1 : c1 = '='
      · simp [List.takeWhile, h1] at htake
      · by_cases h2 : c2 = '='
        · simp [List.takeWhile, h1, h2] at htake
        · by_cases h3 : c3 = '='
          · simp [List.takeWhile, h1, h2, h3] at htake
            exact ⟨rest, by rw [htake.1, htake.2, h3]⟩
          · simp [List.takeWhile, h1, h2, h3] at htake
    | [c1, c2], hmem, htake =>
      by_cases h1 : c1 = '='
      · simp [List.takeWhile, h1] at htake
      · by_cases h2 : c2 = '='
        · simp [List.takeWhile, h1, h2] at htake
        · simp at hmem
          rcases hmem with h | h
          · exact absurd h.symm h1
          · exact absurd h.symm h2
    | [c1], hmem, htake =>
      by_cases h1 : c1 = '='
      · simp [List.takeWhile, h1] at htake
      · simp [List.takeWhile, h1] at htake
    | [], hmem, _ => simp at hmem
  · rintro ⟨rest, rfl⟩
    constructor
    · simp
    · simp [List.takeWhile]

theorem HasPrefix_iff (line : String) :
    HasPrefix line pfx = true ↔ ∃ rest, line.data = 'i' :: 'p' :: '=' :: rest := by
  have hp : pfx.data = ['i', 'p', '='] := rfl
  unfold HasPrefix
  rw [hp, List.isPrefixOf_iff_prefix]
  constructor
  · rintro ⟨t, ht⟩
    exact ⟨t, ht.symm⟩
  · rintro ⟨t, ht⟩
    exact ⟨t, ht.symm⟩

/-- The test of the code, "the line starts with `ip=`", is the test of the
format, "the key of the line is `ip`". -/
theorem lineKey_ip_iff (line : String) :
    lineKey line = some "ip" ↔ HasPrefix line pfx = true := by
  have hip : ("ip" : String) = String.mk ['i', 'p'] := rfl
  rw [HasPrefix_iff, ← ip_line_chars]
  unfold lineKey
  split_ifs with hmem
  · rw [hip, Option.some.injEq, String.ext_iff]
    exact ⟨fun h => ⟨hmem, h⟩, fun h => h.2⟩
  · constructor
    · intro h
      cases h
    · intro h
      exact absurd h.1 hmem

/-- On a line that starts with `ip=`, the slice the code returns is the value
of the line. -/
theorem sliceFrom_eq_lineValue (line : String) (h : HasPrefix line pfx = true) :
    sliceFrom line pfx.length = lineValue line := by
  obtain ⟨rest, hrest⟩ := (HasPrefix_iff line).mp h
  have hlen : pfx.length = 3 := rfl
  unfold sliceFrom lineValue
  rw [hlen, hrest]
  simp [List.dropWhile]

theorem scanLoop_first (pre post : List String) (line : String)
    (hpre : ∀ l ∈ pre, HasPrefix l pfx = false) (hline : HasPrefix line pfx = true) :
    scanLoop (pre ++ line :: post) = some (sliceFrom line pfx.length) := by
  induction pre with
  | nil => simp [scanLoop, hline]
  | cons l rest ih =>
    have hl := hpre l (List.mem_cons_self l rest)
    simp only [List.cons_append, scanLoop, hl]
    exact ih (fun x hx => hpre x (List.mem_cons_of_mem l hx))

theorem scanLoop_none (lines : List String) (h : ∀ l ∈ lines, HasPrefix l pfx = false) :
    scanLoop lines = none := by
  induction lines with
  | nil => rfl
  | cons l rest ih =>
    have hl := h l (List.mem_cons_self l rest)
    simp only [scanLoop, hl]
    exact ih (fun x hx => h x (List.mem_cons_of_mem l hx))

/-! ### The resolver after the request -/

theorem publicIP_of_response (env : Env) (primary secondary : String) (res : Response)
    (hget : env.Get (traceURL primary) = Except.ok res
      ∨ ((∃ e, env.Get (traceURL primary) = Except.error e)
        ∧ env.Get (traceURL secondary) = Except.ok res)) :
    ∃ log, publicIP env primary secondary = readTrace env res log := by
  rcases hget with h | ⟨⟨e, h1⟩, h2⟩
  · refine ⟨[Call.Get (traceURL primary)], ?_⟩
    unfold publicIP
    simp only [traceURL] at h ⊢
    rw [h]
  · refine ⟨[Call.Get (traceURL primary), Call.Get (traceURL secondary)], ?_⟩
    unfold publicIP
    simp only [traceURL] at h1 h2 ⊢
    rw [h1]
    simp only
    rw [h2]

theorem readTrace_found (env : Env) (res : Response) (log : List Call) (v : String)
    (h200 : res.StatusCode = 200) (h : scanLoop res.Body.lines = some v) :
    readTrace env res log = { ip := v, err := none, log := log } := by
  simp [readTrace, StatusOK, h200, h]

theorem readTrace_missing (env : Env) (res : Response) (log : List Call)
    (h200 : res.StatusCode = 200) (h : scanLoop res.Body.lines = none) :
    readTrace env res log
      = { ip := "",
          err := some (match res.Body.err with
            | some e => e
            | none => notFound),
          log := log } := by
  cases he : res.Body.err <;> simp [readTrace, StatusOK, h200, h, he, notFound]

/-! ## The reconciler: one cycle -/

/-- C1 (idempotence fast path): when a tracked record type is resolved without error to the
address already held as its lastKnownContent, `updateRecords` makes no provider
call from the block of that type (neither the re-read nor the PATCH), leaves
the error of that type nil and leaves its lastKnownContent as it was. -/
theorem updateRecords_same_address_no_call (env : Env) (up : updater) (f : Family)
    (htracked : up.id f ≠ "")
    (hok : (resolve env f).err = none)
    (hsame : (resolve env f).ip = up.lastKnownContent f) :
    providerCalls f (updateRecords env up).log = []
      ∧ (updateRecords env up).e f = none
      ∧ (updateRecords env up).up.lastKnownContent f = up.lastKnownContent f := by
  cases f
  · simp only [updater.id, resolve, updater.lastKnownContent] at htracked hok hsame
    obtain ⟨-, -, -, h4, he, hl⟩ := blockAAAA_frame env
      (blockA env { up := up, err := none, e4 := none, e6 := none, log := [] })
    simp only [updateRecords, Result.e, updater.lastKnownContent]
    rw [hl, he, h4, blockA_same env _ htracked hok hsame]
    simp [PublicIPv4, providerCalls_publicIP]
  · simp only [updater.id, resolve, updater.lastKnownContent] at htracked hok hsame
    obtain ⟨-, -, ha, h6, he, hl⟩ := blockA_frame env
      { up := up, err := none, e4 := none, e6 := none, log := [] }
    simp only [updateRecords, Result.e, updater.lastKnownContent]
    rw [blockAAAA_same env _ (by rw [ha]; exact htracked) hok (by rw [h6]; exact hsame)]
    simp only [providerCalls_append, hl, he, h6]
    simp [providerCalls_nil, PublicIPv6, providerCalls_publicIP]

/-- Witness of C1: the A record is already at the resolved address `1.2.3.4`. -/
theorem updateRecords_same_address_no_call_witness :
    providerCalls Family.A (updateRecords envV4 { upA with ipv4 := "1.2.3.4" }).log = []
      ∧ (updateRecords envV4 { upA with ipv4 := "1.2.3.4" }).e Family.A = none
      ∧ (updateRecords envV4 { upA with ipv4 := "1.2.3.4" }).up.lastKnownContent Family.A
          = "1.2.3.4" :=
  updateRecords_same_address_no_call envV4 { upA with ipv4 := "1.2.3.4" } Family.A
    (by decide) (by decide) (by decide)

/-- C2, as amended: when the A record `up.a` is tracked, the IPv4 address resolves to `ip`
different from its lastKnownContent, the re-read of the record succeeds with a
content different from `ip` and the PATCH succeeds, then the provider calls of
the A block are the re-read of `up.a` followed by one PATCH on the path of
`up.a` in the zone with content `ip`, the A lastKnownContent becomes `ip`, the A
block has no error and the returned error is that of the AAAA block; when no
AAAA record is tracked nothing else is called and no error is returned. -/
theorem updateRecords_patches_A (env : Env) (up : updater) (ip : String) (rec : DNSRecord)
    (htracked : up.a ≠ "")
    (hok : (PublicIPv4 env).err = none) (hip : (PublicIPv4 env).ip = ip)
    (hne : ip ≠ up.ipv4)
    (hread : env.apiA.DNSRecord up.zone up.a = Except.ok rec)
    (hstale : rec.Content ≠ ip)
    (hpatch : env.apiA.Raw "PATCH" (patchPath up.zone up.a) { rec with Content := ip } = none) :
    providerCalls Family.A (updateRecords env up).log
        = [Call.DNSRecord Family.A up.zone up.a,
           Call.Raw Family.A "PATCH" (patchPath up.zone up.a) { rec with Content := ip }]
      ∧ (updateRecords env up).up.ipv4 = ip
      ∧ (updateRecords env up).e4 = none
      ∧ (updateRecords env up).err = (updateRecords env up).e6
      ∧ (up.aaaa = "" →
          (updateRecords env up).err = none
          ∧ (updateRecords env up).log
              = (PublicIPv4 env).log
                ++ [Call.DNSRecord Family.A up.zone up.a,
                    Call.Raw Family.A "PATCH" (patchPath up.zone up.a)
                      { rec with Content := ip }]) := by
  subst hip
  have hw := updateRecord_patch env.apiA Family.A up.zone up.a (PublicIPv4 env).ip rec hread hstale
  have hA : blockA env { up := up, err := none, e4 := none, e6 := none, log := [] }
      = { up := { up with ipv4 := (PublicIPv4 env).ip }, err := none, e4 := none, e6 := none,
          log := (PublicIPv4 env).log
            ++ [Call.DNSRecord Family.A up.zone up.a,
                Call.Raw Family.A "PATCH" (patchPath up.zone up.a)
                  { rec with Content := (PublicIPv4 env).ip }] } := by
    rw [blockA_write_ok env _ htracked hok hne (by rw [hw]; exact hpatch)]
    simp [hw]
  obtain ⟨-, -, -, h4, he, hl⟩ := blockAAAA_frame env
    (blockA env { up := up, err := none, e4 := none, e6 := none, log := [] })
  have herr := blockAAAA_err env
    (blockA env { up := up, err := none, e4 := none, e6 := none, log := [] })
    (by rw [hA])
  simp only [updateRecords]
  refine ⟨?_, ?_, ?_, ?_, ?_⟩
  · rw [hl, hA]
    simp only [providerCalls_append, providerCalls_PublicIPv4, List.nil_append]
    simp [providerCalls, Call.family]
  · rw [h4, hA]
  · rw [he, hA]
  · rw [herr, hA]
    cases (blockAAAA env _).e6 <;> rfl
  · intro h6
    rw [hA, blockAAAA_untracked env _ h6]
    exact ⟨rfl, rfl⟩

/-- Witness of the amended C2: `r1` goes from `1.2.3.0` to `1.2.3.4`. -/
theorem updateRecords_patches_A_witness :
    providerCalls Family.A (updateRecords envV4 upA).log
        = [Call.DNSRecord Family.A "z1" "r1",
           Call.Raw Family.A "PATCH" "/zones/z1/dns_records/r1"
             { recR1 with Content := "1.2.3.4" }]
      ∧ (updateRecords envV4 upA).up.ipv4 = "1.2.3.4"
      ∧ (updateRecords envV4 upA).e4 = none
      ∧ (updateRecords envV4 upA).err = (updateRecords envV4 upA).e6
      ∧ (upA.aaaa = "" →
          (updateRecords envV4 upA).err = none
          ∧ (updateRecords envV4 upA).log
              = (PublicIPv4 envV4).log
                ++ [Call.DNSRecord Family.A "z1" "r1",
                    Call.Raw Family.A "PATCH" "/zones/z1/dns_records/r1"
                      { recR1 with Content := "1.2.3.4" }]) :=
  updateRecords_patches_A envV4 upA "1.2.3.4" recR1
    (by decide) (by decide) (by decide) (by decide) rfl (by decide) rfl

/-- Counterexample to C2 as stated: the updater tracks the A record `r1` with
lastKnownContent `1.2.3.0`, the IPv4 address resolves to `1.2.3.4`, the re-read
of `r1` succeeds with content `1.2.3.0` and the PATCH succeeds, yet
`updateRecords` returns an error, that of the AAAA record it also tracks. -/
theorem updateRecords_patches_A_yet_error :
    upBoth.a = "r1" ∧ upBoth.ipv4 = "1.2.3.0"
      ∧ (PublicIPv4 envV4).err = none ∧ (PublicIPv4 envV4).ip = "1.2.3.4"
      ∧ envV4.apiA.DNSRecord upBoth.zone "r1" = Except.ok recR1
      ∧ recR1.Content ≠ "1.2.3.4"
      ∧ envV4.apiA.Raw "PATCH" (patchPath upBoth.zone "r1") { recR1 with Content := "1.2.3.4" }
          = none
      ∧ (updateRecords envV4 upBoth).up.ipv4 = "1.2.3.4"
      ∧ (updateRecords envV4 upBoth).err = some unreachable :=
  ⟨by decide, by decide, by decide, by decide, rfl, by decide, rfl, by decide, by decide⟩

/-- C3: when both records are tracked, IPv4 resolution fails with `e4`, IPv6 resolution
succeeds with an address different from the AAAA lastKnownContent, and the
re-read and (where one is issued) the PATCH of the AAAA record succeed, then the
AAAA lastKnownContent is the new address, the A lastKnownContent is unchanged,
no provider call was made for the A record, and the returned error is `e4`. -/
theorem updateRecords_v4_fails_v6_updates (env : Env) (up : updater) (e4 : Error)
    (ip : String) (rec : DNSRecord)
    (hA : up.a ≠ "") (hAAAA : up.aaaa ≠ "")
    (h4 : (PublicIPv4 env).err = some e4)
    (h6 : (PublicIPv6 env).err = none) (hip : (PublicIPv6 env).ip = ip)
    (hne : ip ≠ up.ipv6)
    (hread : env.apiAAAA.DNSRecord up.zone up.aaaa = Except.ok rec)
    (hpatch : rec.Content ≠ ip →
      env.apiAAAA.Raw "PATCH" (patchPath up.zone up.aaaa) { rec with Content := ip } = none) :
    (updateRecords env up).up.ipv6 = ip
      ∧ (updateRecords env up).up.ipv4 = up.ipv4
      ∧ providerCalls Family.A (updateRecords env up).log = []
      ∧ (updateRecords env up).err = some e4 := by
  subst hip
  have hw : (updateRecord env.apiAAAA Family.AAAA up.zone up.aaaa (PublicIPv6 env).ip).err
      = none := by
    by_cases hc : rec.Content = (PublicIPv6 env).ip
    · rw [updateRecord_in_place env.apiAAAA Family.AAAA up.zone up.aaaa _ rec hread hc]
    · rw [updateRecord_patch env.apiAAAA Family.AAAA up.zone up.aaaa _ rec hread hc]
      exact hpatch hc
  simp only [updateRecords]
  rw [blockA_resolve_failed env _ hA e4 h4]
  rw [blockAAAA_write_ok env _ hAAAA h6 hne hw]
  simp [providerCalls_append, providerCalls_PublicIPv4, providerCalls_PublicIPv6,
    providerCalls_updateRecord_other]

/-- Witness of C3: IPv4 cannot be resolved, `r2` goes to `2001:db8::2`. -/
theorem updateRecords_v4_fails_v6_updates_witness :
    (updateRecords envV6 upBoth).up.ipv6 = "2001:db8::2"
      ∧ (updateRecords envV6 upBoth).up.ipv4 = upBoth.ipv4
      ∧ providerCalls Family.A (updateRecords envV6 upBoth).log = []
      ∧ (updateRecords envV6 upBoth).err = some unreachable :=
  updateRecords_v4_fails_v6_updates envV6 upBoth unreachable "2001:db8::2" recR2
    (by decide) (by decide) (by decide) (by decide) (by decide) (by decide) rfl (fun _ => rfl)

/-- C4: lastKnownContent is never updated speculatively.  If the lastKnownContent of a record
type after `updateRecords` differs from its value before, then that type is
tracked, its resolution succeeded (and the new value is the resolved address),
the re-read of its record succeeded, and either the provider already held the
new address or the PATCH succeeded; equivalently, lastKnownContent is unchanged
whenever the resolution, the re-read or the PATCH fails. -/
theorem lastKnownContent_not_speculative (env : Env) (up : updater) (f : Family) :
    ((updateRecords env up).up.lastKnownContent f ≠ up.lastKnownContent f →
        up.id f ≠ ""
        ∧ (resolve env f).err = none
        ∧ (updateRecords env up).up.lastKnownContent f = (resolve env f).ip
        ∧ ∃ rec, (env.api f).DNSRecord up.zone (up.id f) = Except.ok rec
            ∧ (rec.Content = (resolve env f).ip
              ∨ (env.api f).Raw "PATCH" (patchPath up.zone (up.id f))
                  { rec with Content := (resolve env f).ip } = none))
      ∧ (((resolve env f).err ≠ none
          ∨ (∃ e, (env.api f).DNSRecord up.zone (up.id f) = Except.error e)
          ∨ (∃ rec e, (env.api f).DNSRecord up.zone (up.id f) = Except.ok rec
              ∧ rec.Content ≠ (resolve env f).ip
              ∧ (env.api f).Raw "PATCH" (patchPath up.zone (up.id f))
                  { rec with Content := (resolve env f).ip } = some e)) →
        (updateRecords env up).up.lastKnownContent f = up.lastKnownContent f) := by
  have key : (updateRecords env up).up.lastKnownContent f ≠ up.lastKnownContent f →
      up.id f ≠ ""
      ∧ (resolve env f).err = none
      ∧ (updateRecords env up).up.lastKnownContent f = (resolve env f).ip
      ∧ ∃ rec, (env.api f).DNSRecord up.zone (up.id f) = Except.ok rec
          ∧ (rec.Content = (resolve env f).ip
            ∨ (env.api f).Raw "PATCH" (patchPath up.zone (up.id f))
                { rec with Content := (resolve env f).ip } = none) := by
    intro hch
    cases f
    · obtain ⟨-, -, -, h4, -, -⟩ := blockAAAA_frame env
        (blockA env { up := up, err := none, e4 := none, e6 := none, log := [] })
      simp only [updateRecords, updater.lastKnownContent] at hch
      rw [h4] at hch
      obtain ⟨ha, hres, hnew, hw⟩ := blockA_changed env _ hch
      refine ⟨ha, hres, ?_, updateRecord_ok _ _ _ _ _ hw⟩
      simp only [updateRecords, updater.lastKnownContent, resolve]
      rw [h4]
      exact hnew
    · obtain ⟨hz, -, ha, h6, -, -⟩ := blockA_frame env
        { up := up, err := none, e4 := none, e6 := none, log := [] }
      simp only [updateRecords, updater.lastKnownContent] at hch
      have hch1 : (blockAAAA env (blockA env
          { up := up, err := none, e4 := none, e6 := none, log := [] })).up.ipv6
          ≠ (blockA env { up := up, err := none, e4 := none, e6 := none, log := [] }).up.ipv6 := by
        rw [h6]
        exact hch
      obtain ⟨htr, hres, hnew, hw⟩ := blockAAAA_changed env _ hch1
      rw [hz, ha] at hw
      rw [ha] at htr
      exact ⟨htr, hres, hnew, updateRecord_ok _ _ _ _ _ hw⟩
  refine ⟨key, ?_⟩
  intro hfail
  by_contra hch
  obtain ⟨-, hres, -, rec, hread, hdone⟩ := key hch
  rcases hfail with h | ⟨e, h⟩ | ⟨rec1, e, h, hc, hp⟩
  · exact h hres
  · rw [hread] at h
    cases h
  · rw [hread] at h
    cases h
    rcases hdone with h1 | h1
    · exact hc h1
    · rw [h1] at hp
      cases hp

/-- Witness of C4: in the first scenario the lastKnownContent of `r1` changes, and it does so
after a successful resolution, re-read and PATCH. -/
theorem lastKnownContent_not_speculative_witness :
    upA.id Family.A ≠ ""
      ∧ (resolve envV4 Family.A).err = none
      ∧ (updateRecords envV4 upA).up.lastKnownContent Family.A = (resolve envV4 Family.A).ip
      ∧ ∃ rec, (envV4.api Family.A).DNSRecord upA.zone (upA.id Family.A) = Except.ok rec
          ∧ (rec.Content = (resolve envV4 Family.A).ip
            ∨ (envV4.api Family.A).Raw "PATCH" (patchPath upA.zone (upA.id Family.A))
                { rec with Content := (resolve envV4 Family.A).ip } = none) :=
  (lastKnownContent_not_speculative envV4 upA Family.A).1 (by decide)

/-- C8 (defensive re-read): for a tracked record whose type resolves to an address different
from its lastKnownContent and whose re-read succeeds with the record `rec`: if
the content of `rec` is the resolved address, the only provider call of that
block is the re-read (no PATCH), lastKnownContent becomes the address and the
block has no error; if the content differs, the provider calls of that block are
the re-read followed by exactly one PATCH. -/
theorem updateRecords_defensive_reread (env : Env) (up : updater) (f : Family)
    (rec : DNSRecord)
    (htracked : up.id f ≠ "")
    (hok : (resolve env f).err = none)
    (hne : (resolve env f).ip ≠ up.lastKnownContent f)
    (hread : (env.api f).DNSRecord up.zone (up.id f) = Except.ok rec) :
    (rec.Content = (resolve env f).ip →
        providerCalls f (updateRecords env up).log = [Call.DNSRecord f up.zone (up.id f)]
        ∧ (updateRecords env up).up.lastKnownContent f = (resolve env f).ip
        ∧ (updateRecords env up).e f = none)
      ∧ (rec.Content ≠ (resolve env f).ip →
        providerCalls f (updateRecords env up).log
          = [Call.DNSRecord f up.zone (up.id f),
             Call.Raw f "PATCH" (patchPath up.zone (up.id f))
               { rec with Content := (resolve env f).ip }]) := by
  cases f
  · simp only [updater.id, resolve, updater.lastKnownContent, Env.api, Result.e]
      at htracked hok hne hread ⊢
    obtain ⟨-, -, -, h4, he, hl⟩ := blockAAAA_frame env
      (blockA env { up := up, err := none, e4 := none, e6 := none, log := [] })
    obtain ⟨hlog, hdone⟩ := blockA_write env
      { up := up, err := none, e4 := none, e6 := none, log := [] } htracked hok hne
    simp only [updateRecords]
    rw [hl, h4, he, hlog]
    constructor
    · intro hc
      have hw := updateRecord_in_place env.apiA Family.A up.zone up.a _ rec hread hc
      rw [hw] at hdone ⊢
      obtain ⟨h1, h2⟩ := hdone rfl
      exact ⟨by simp [providerCalls_nil], h1, h2⟩
    · intro hc
      rw [updateRecord_patch env.apiA Family.A up.zone up.a _ rec hread hc]
      simp [providerCalls_nil]
  · simp only [updater.id, resolve, updater.lastKnownContent, Env.api, Result.e]
      at htracked hok hne hread ⊢
    obtain ⟨hz, -, ha, h6, he, hl⟩ := blockA_frame env
      { up := up, err := none, e4 := none, e6 := none, log := [] }
    obtain ⟨hlog, hdone⟩ := blockAAAA_write env
      (blockA env { up := up, err := none, e4 := none, e6 := none, log := [] })
      (by rw [ha]; exact htracked) hok (by rw [h6]; exact hne)
    simp only [hz, ha, hl, he, providerCalls_nil, List.nil_append] at hlog hdone
    simp only [updateRecords]
    rw [hlog]
    constructor
    · intro hc
      have hw := updateRecord_in_place env.apiAAAA Family.AAAA up.zone up.aaaa _ rec hread hc
      rw [hw] at hdone ⊢
      obtain ⟨h1, h2⟩ := hdone rfl
      exact ⟨by simp [providerCalls_nil], h1, h2⟩
    · intro hc
      rw [updateRecord_patch env.apiAAAA Family.AAAA up.zone up.aaaa _ rec hread hc]

/-- Witness of C8: the provider already holds `1.2.3.4` in `r1`, so the A block only reads. -/
theorem updateRecords_defensive_reread_witness :
    providerCalls Family.A (updateRecords envBoth upBoth).log
        = [Call.DNSRecord Family.A upBoth.zone (upBoth.id Family.A)]
      ∧ (updateRecords envBoth upBoth).up.lastKnownContent Family.A
          = (resolve envBoth Family.A).ip
      ∧ (updateRecords envBoth upBoth).e Family.A = none :=
  (updateRecords_defensive_reread envBoth upBoth Family.A { recR1 with Content := "1.2.3.4" }
    (by decide) (by decide) (by decide) rfl).1 (by decide)

/-- C9 (last failure wins): when both records are tracked, the A block ends with the error
`eA` and the AAAA block ends with the error `eAAAA`, `updateRecords` returns
`eAAAA` and both lastKnownContent values are unchanged. -/
theorem updateRecords_last_failure_wins (env : Env) (up : updater) (eA eAAAA : Error)
    (_hA : up.a ≠ "") (_hAAAA : up.aaaa ≠ "")
    (h4 : (updateRecords env up).e4 = some eA)
    (h6 : (updateRecords env up).e6 = some eAAAA) :
    (updateRecords env up).err = some eAAAA
      ∧ (updateRecords env up).up.ipv4 = up.ipv4
      ∧ (updateRecords env up).up.ipv6 = up.ipv6 := by
  obtain ⟨-, -, -, -, he6, -⟩ := blockA_frame env
    { up := up, err := none, e4 := none, e6 := none, log := [] }
  obtain ⟨-, -, -, -, he4, -⟩ := blockAAAA_frame env
    (blockA env { up := up, err := none, e4 := none, e6 := none, log := [] })
  simp only [updateRecords] at h4 h6 ⊢
  rw [he4] at h4
  obtain ⟨hup1, -⟩ := blockA_failed env _ eA rfl h4
  obtain ⟨hup2, herr⟩ := blockAAAA_failed env _ eAAAA he6 h6
  rw [hup2, hup1]
  exact ⟨herr, rfl, rfl⟩

/-- Witness of C9: the write of `r1` is refused and the IPv6 trace endpoint answers 503; the
error returned is the one of the AAAA block. -/
theorem updateRecords_last_failure_wins_witness :
    (updateRecords envFailing upBoth).err = some (Error.New "Service Unavailable")
      ∧ (updateRecords envFailing upBoth).up.ipv4 = upBoth.ipv4
      ∧ (updateRecords envFailing upBoth).up.ipv6 = upBoth.ipv6 :=
  updateRecords_last_failure_wins envFailing upBoth (Error.lib "HTTP status 403: forbidden")
    (Error.New "Service Unavailable") (by decide) (by decide) (by decide) (by decide)

/-! ## The record locator -/

/-- C5, as amended: when the list the provider returns for the domain holds two records of
type A and the earlier of the two has a non-empty id, `loadRecords` on a freshly
constructed updater fails with a duplicate-record error (for type A, or for type
AAAA when a second AAAA record comes first). -/
theorem loadRecords_second_A_rejected (api : API) (zone domain : String)
    (recs pre rest : List DNSRecord) (r1 r2 : DNSRecord)
    (hlist : api.DNSRecords zone (nameFilter domain) = Except.ok recs)
    (hsplit : recs = pre ++ r1 :: rest)
    (h1 : r1.Typ = "A") (hid : r1.ID ≠ "")
    (hmem : r2 ∈ rest) (h2 : r2.Typ = "A") :
    ∃ e, (loadRecords api (updater.fresh zone) domain).2 = some e
      ∧ DuplicateRecordError domain e := by
  have hloop : ∃ e, (loadLoop domain (updater.fresh zone) recs).2 = some e := by
    subst hsplit
    rw [loadLoop_append]
    rcases hp : loadLoop domain (updater.fresh zone) pre with ⟨up1, o⟩
    cases o with
    | some e => exact ⟨e, rfl⟩
    | none =>
      simp only
      by_cases ha : up1.a = ""
      · rw [loadLoop_cons_A domain up1 r1 rest h1 ha]
        exact loadLoop_second_A domain rest { up1 with a := r1.ID, ipv4 := r1.Content } hid
          ⟨r2, hmem, h2⟩
      · rw [loadLoop_cons_A_dup domain up1 r1 rest h1 ha]
        exact ⟨_, rfl⟩
  obtain ⟨e, he⟩ := hloop
  exact ⟨e, loadRecords_of_loop_err api zone domain recs e hlist he,
    loadLoop_err_duplicate domain recs _ e he⟩

/-- Witness of the amended C5: the provider returns the A records `r1` and `r3`. -/
theorem loadRecords_second_A_rejected_witness :
    ∃ e, (loadRecords (providerOf [recR1, recTxt, recR3] none) (updater.fresh "z1")
        "home.example.com").2 = some e
      ∧ DuplicateRecordError "home.example.com" e :=
  loadRecords_second_A_rejected (providerOf [recR1, recTxt, recR3] none) "z1" "home.example.com"
    [recR1, recTxt, recR3] [] [recTxt, recR3] recR1 recR3 rfl rfl rfl (by decide)
    (by decide) rfl

/-- Counterexample to C5 as stated: the provider returns two records of type A, the first
with an empty id, and `loadRecords` on a freshly constructed updater succeeds,
tracking the second. -/
theorem loadRecords_two_A_accepted :
    (providerOf [recNoId, recR3] none).DNSRecords "z1" (nameFilter "home.example.com")
        = Except.ok [recNoId, recR3]
      ∧ recNoId.Typ = "A" ∧ recR3.Typ = "A"
      ∧ loadRecords (providerOf [recNoId, recR3] none) (updater.fresh "z1") "home.example.com"
          = ({ zone := "z1", a := "r3", aaaa := "", ipv4 := "1.2.3.9", ipv6 := "" }, none) :=
  ⟨rfl, rfl, rfl, by decide⟩

/-- C6: when the list the provider returns for the domain holds no record of type A and none
of type AAAA, `loadRecords` on a freshly constructed updater fails with the
no-records error for that domain. -/
theorem loadRecords_no_records (api : API) (zone domain : String) (recs : List DNSRecord)
    (hlist : api.DNSRecords zone (nameFilter domain) = Except.ok recs)
    (hnone : ∀ r ∈ recs, r.Typ ≠ "A" ∧ r.Typ ≠ "AAAA") :
    (loadRecords api (updater.fresh zone) domain).2 = some (NoRecordsError domain) := by
  rw [loadRecords_of_loop_ok api zone domain recs (updater.fresh zone) hlist
    (loadLoop_other domain _ recs hnone)]
  simp [updater.fresh]

/-- Witness of C6: the provider returns only a TXT record. -/
theorem loadRecords_no_records_witness :
    (loadRecords (providerOf [recTxt] none) (updater.fresh "z1") "home.example.com").2
      = some (NoRecordsError "home.example.com") :=
  loadRecords_no_records (providerOf [recTxt] none) "z1" "home.example.com" [recTxt] rfl
    (by decide)

/-- C7, as amended: when the list the provider returns for the domain holds exactly one
record of type A, that record has a non-empty id, and the list holds no record
of type AAAA, `loadRecords` on a freshly constructed updater succeeds and the
resulting state tracks no AAAA record. -/
theorem loadRecords_single_A (api : API) (zone domain : String) (recs : List DNSRecord)
    (hlist : api.DNSRecords zone (nameFilter domain) = Except.ok recs)
    (hA : recs.countP (fun r => decide (r.Typ = "A")) = 1)
    (hAAAA : recs.countP (fun r => decide (r.Typ = "AAAA")) = 0)
    (hid : ∀ r ∈ recs, r.Typ = "A" → r.ID ≠ "") :
    (loadRecords api (updater.fresh zone) domain).2 = none
      ∧ (loadRecords api (updater.fresh zone) domain).1.aaaa = "" := by
  obtain ⟨up1, hloop, ha, haaaa⟩ :=
    (loadLoop_single_A domain recs (updater.fresh zone) rfl hAAAA hid).2 rfl hA
  rw [loadRecords_of_loop_ok api zone domain recs up1 hlist hloop]
  simp [ha, haaaa]

/-- Witness of the amended C7: the provider returns a TXT record and the A record `r1`. -/
theorem loadRecords_single_A_witness :
    (loadRecords (providerOf [recTxt, recR1] none) (updater.fresh "z1") "home.example.com").2
        = none
      ∧ (loadRecords (providerOf [recTxt, recR1] none) (updater.fresh "z1")
          "home.example.com").1.aaaa = "" :=
  loadRecords_single_A (providerOf [recTxt, recR1] none) "z1" "home.example.com"
    [recTxt, recR1] rfl (by decide) (by decide) (by decide)

/-- Counterexample to C7 as stated: the provider returns exactly one record of type A, with
an empty id, and no record of type AAAA, and `loadRecords` on a freshly
constructed updater fails with the no-records error. -/
theorem loadRecords_single_A_rejected :
    (providerOf [recNoId, recTxt] none).DNSRecords "z1" (nameFilter "home.example.com")
        = Except.ok [recNoId, recTxt]
      ∧ [recNoId, recTxt].countP (fun r => decide (r.Typ = "A")) = 1
      ∧ [recNoId, recTxt].countP (fun r => decide (r.Typ = "AAAA")) = 0
      ∧ (loadRecords (providerOf [recNoId, recTxt] none) (updater.fresh "z1")
          "home.example.com").2 = some (NoRecordsError "home.example.com") :=
  ⟨rfl, by decide, by decide, by decide⟩

/-! ## The resolver -/

/-- C10, as amended: for a trace-service response with status 200, obtained from the primary
endpoint or, after a transport failure of the primary, from the secondary:
`publicIP` returns without error the value (the text after `ip=`) of the first
line of the body whose key is exactly `ip`, whatever the other lines are; and if
no line of the body has the key `ip`, it returns the empty string and fails,
with the not-found error when the scanner ended without error and with the
error of the scanner otherwise. -/
theorem publicIP_reads_ip_line (env : Env) (primary secondary : String) (res : Response)
    (hget : env.Get (traceURL primary) = Except.ok res
      ∨ ((∃ e, env.Get (traceURL primary) = Except.error e)
        ∧ env.Get (traceURL secondary) = Except.ok res))
    (h200 : res.StatusCode = 200) :
    (∀ (pre post : List String) (line : String),
        res.Body.lines = pre ++ line :: post →
        (∀ l ∈ pre, lineKey l ≠ some "ip") →
        lineKey line = some "ip" →
        (publicIP env primary secondary).ip = lineValue line
          ∧ (publicIP env primary secondary).err = none)
      ∧ ((∀ l ∈ res.Body.lines, lineKey l ≠ some "ip") →
        (publicIP env primary secondary).ip = ""
          ∧ (res.Body.err = none → (publicIP env primary secondary).err = some notFound)
          ∧ (∀ e, res.Body.err = some e → (publicIP env primary secondary).err = some e)) := by
  obtain ⟨log, hlog⟩ := publicIP_of_response env primary secondary res hget
  rw [hlog]
  have hno : ∀ l : String, lineKey l ≠ some "ip" → HasPrefix l pfx = false := by
    intro l hl
    cases hp : HasPrefix l pfx with
    | false => rfl
    | true => exact absurd ((lineKey_ip_iff l).mpr hp) hl
  constructor
  · intro pre post line hsplit hpre hline
    have hp := (lineKey_ip_iff line).mp hline
    have hscan : scanLoop res.Body.lines = some (sliceFrom line pfx.length) := by
      rw [hsplit]
      exact scanLoop_first pre post line (fun l hl => hno l (hpre l hl)) hp
    rw [readTrace_found env res log _ h200 hscan]
    exact ⟨sliceFrom_eq_lineValue line hp, rfl⟩
  · intro hnone
    have hscan : scanLoop res.Body.lines = none :=
      scanLoop_none _ (fun l hl => hno l (hnone l hl))
    rw [readTrace_missing env res log h200 hscan]
    refine ⟨rfl, ?_, ?_⟩
    · intro he
      simp only [he]
    · intro e he
      simp only [he]

/-- Witness of the amended C10: the third line of the body is `ip=1.2.3.4`. -/
theorem publicIP_reads_ip_line_witness :
    (publicIP envV4 "1.1.1.1" "1.0.0.1").ip = "1.2.3.4"
      ∧ (publicIP envV4 "1.1.1.1" "1.0.0.1").err = none :=
  (publicIP_reads_ip_line envV4 "1.1.1.1" "1.0.0.1"
    { StatusCode := 200, Body := traceBody "1.2.3.4" } (Or.inl rfl) rfl).1
    ["fl=29f85", "h=1.1.1.1"] ["ts=1700000000.123", "visit_scheme=https"] "ip=1.2.3.4"
    rfl (by decide) (by decide)

/-- Counterexample to C10 as stated: the response has status 200 and no line of its body has
the key `ip`, yet `publicIP` does not fail with the not-found error: the body
broke off, and the error returned is the read error the scanner reports. -/
theorem publicIP_scanner_error :
    envCut.Get (traceURL "1.1.1.1") = Except.ok { StatusCode := 200, Body := bodyCut }
      ∧ (∀ l ∈ bodyCut.lines, lineKey l ≠ some "ip")
      ∧ (publicIP envCut "1.1.1.1" "1.0.0.1").err = some (Error.lib "unexpected EOF")
      ∧ (publicIP envCut "1.1.1.1" "1.0.0.1").err ≠ some notFound :=
  ⟨rfl, by decide, by decide, by decide⟩

/-! ### More on the resolver -/

theorem readTrace_status (env : Env) (res : Response) (log : List Call)
    (h : res.StatusCode ≠ 200) :
    readTrace env res log
      = { ip := "", err := some (Error.New (env.StatusText res.StatusCode)), log := log } := by
  simp [readTrace, StatusOK, h]

theorem publicIP_primary_ok (env : Env) (primary secondary : String) (res : Response)
    (h : env.Get (traceURL primary) = Except.ok res) :
    publicIP env primary secondary = readTrace env res [Call.Get (traceURL primary)] := by
  unfold publicIP
  simp only [traceURL] at h ⊢
  rw [h]

theorem publicIP_secondary_ok (env : Env) (primary secondary : String) (e : Error)
    (res : Response)
    (h1 : env.Get (traceURL primary) = Except.error e)
    (h2 : env.Get (traceURL secondary) = Except.ok res) :
    publicIP env primary secondary
      = readTrace env res [Call.Get (traceURL primary), Call.Get (traceURL secondary)] := by
  unfold publicIP
  simp only [traceURL] at h1 h2 ⊢
  rw [h1]
  simp only
  rw [h2]

theorem publicIP_both_failed (env : Env) (primary secondary : String) (e1 e2 : Error)
    (h1 : env.Get (traceURL primary) = Except.error e1)
    (h2 : env.Get (traceURL secondary) = Except.error e2) :
    publicIP env primary secondary
      = { ip := "", err := some e2,
          log := [Call.Get (traceURL primary), Call.Get (traceURL secondary)] } := by
  unfold publicIP
  simp only [traceURL] at h1 h2 ⊢
  rw [h1]
  simp only
  rw [h2]

/-- The requests of `publicIP`: the primary alone when it answers, the primary
and then the secondary when it does not. -/
theorem publicIP_log (env : Env) (primary secondary : String) :
    (publicIP env primary secondary).log
      = match env.Get (traceURL primary) with
        | Except.ok _ => [Call.Get (traceURL primary)]
        | Except.error _ => [Call.Get (traceURL primary), Call.Get (traceURL secondary)] := by
  cases h1 : env.Get (traceURL primary) with
  | ok res =>
    rw [publicIP_primary_ok env primary secondary res h1, readTrace_log]
  | error e =>
    cases h2 : env.Get (traceURL secondary) with
    | ok res =>
      rw [publicIP_secondary_ok env primary secondary e res h1 h2, readTrace_log]
    | error e2 =>
      rw [publicIP_both_failed env primary secondary e e2 h1 h2]

theorem readTrace_first_line (env : Env) (res : Response) (log : List Call)
    (pre post : List String) (line : String)
    (h200 : res.StatusCode = 200)
    (hsplit : res.Body.lines = pre ++ line :: post)
    (hpre : ∀ l ∈ pre, lineKey l ≠ some "ip")
    (hline : lineKey line = some "ip") :
    readTrace env res log = { ip := lineValue line, err := none, log := log } := by
  have hp := (lineKey_ip_iff line).mp hline
  have hno : ∀ l ∈ pre, HasPrefix l pfx = false := by
    intro l hl
    cases hq : HasPrefix l pfx with
    | false => rfl
    | true => exact absurd ((lineKey_ip_iff l).mpr hq) (hpre l hl)
  have hscan : scanLoop res.Body.lines = some (sliceFrom line pfx.length) := by
    rw [hsplit]
    exact scanLoop_first pre post line hno hp
  rw [readTrace_found env res log _ h200 hscan, sliceFrom_eq_lineValue line hp]

theorem readTrace_no_line (env : Env) (res : Response) (log : List Call)
    (hnone : ∀ l ∈ res.Body.lines, lineKey l ≠ some "ip") :
    (readTrace env res log).ip = "" ∧ ∃ e, (readTrace env res log).err = some e := by
  by_cases h200 : res.StatusCode = 200
  · have hscan : scanLoop res.Body.lines = none := by
      apply scanLoop_none
      intro l hl
      cases hq : HasPrefix l pfx with
      | false => rfl
      | true => exact absurd ((lineKey_ip_iff l).mpr hq) (hnone l hl)
    rw [readTrace_missing env res log h200 hscan]
    exact ⟨rfl, _, rfl⟩
  · rw [readTrace_status env res log h200]
    exact ⟨rfl, _, rfl⟩

/-! ## The resolver: fallback and failure -/

/-- C11, as amended: when the request to the primary IPv4 trace endpoint fails at transport
level and the secondary endpoint answers with status 200 and a body in which the
first line with the key `ip` has the value `v`, `PublicIPv4` returns `v` without
error. -/
theorem PublicIPv4_falls_back (env : Env) (e : Error) (res : Response)
    (pre post : List String) (line v : String)
    (hprimary : env.Get (traceURL "1.1.1.1") = Except.error e)
    (hsecondary : env.Get (traceURL "1.0.0.1") = Except.ok res)
    (h200 : res.StatusCode = 200)
    (hsplit : res.Body.lines = pre ++ line :: post)
    (hpre : ∀ l ∈ pre, lineKey l ≠ some "ip")
    (hline : lineKey line = some "ip")
    (hvalue : lineValue line = v) :
    (PublicIPv4 env).ip = v ∧ (PublicIPv4 env).err = none := by
  unfold PublicIPv4
  rw [publicIP_secondary_ok env _ _ e res hprimary hsecondary,
    readTrace_first_line env res _ pre post line h200 hsplit hpre hline]
  exact ⟨hvalue, rfl⟩

/-- Witness of the amended C11: only the secondary endpoint answers, with `ip=1.2.3.4`. -/
theorem PublicIPv4_falls_back_witness :
    (PublicIPv4 (envFallback (traceBody "1.2.3.4"))).ip = "1.2.3.4"
      ∧ (PublicIPv4 (envFallback (traceBody "1.2.3.4"))).err = none :=
  PublicIPv4_falls_back (envFallback (traceBody "1.2.3.4")) unreachable
    { StatusCode := 200, Body := traceBody "1.2.3.4" }
    ["fl=29f85", "h=1.1.1.1"] ["ts=1700000000.123", "visit_scheme=https"] "ip=1.2.3.4" "1.2.3.4"
    rfl rfl rfl rfl (by decide) (by decide) (by decide)

/-- Counterexample to C11 as stated: the primary endpoint fails at transport level, the
secondary answers 200 with a body that contains the line `ip=5.6.7.8`, yet
`PublicIPv4` does not return `5.6.7.8`: an earlier line `ip=1.2.3.4` is the one
it returns. -/
theorem PublicIPv4_returns_first_ip_line :
    (envFallback bodyTwoIp).Get (traceURL "1.1.1.1") = Except.error unreachable
      ∧ (envFallback bodyTwoIp).Get (traceURL "1.0.0.1")
          = Except.ok { StatusCode := 200, Body := bodyTwoIp }
      ∧ "ip=5.6.7.8" ∈ bodyTwoIp.lines
      ∧ lineKey "ip=5.6.7.8" = some "ip" ∧ lineValue "ip=5.6.7.8" = "5.6.7.8"
      ∧ (PublicIPv4 (envFallback bodyTwoIp)).ip = "1.2.3.4"
      ∧ (PublicIPv4 (envFallback bodyTwoIp)).ip ≠ "5.6.7.8" :=
  ⟨rfl, rfl, by decide, by decide, by decide, by decide, by decide⟩

/-- C12: `PublicIPv4` returns the empty string and an error whenever both trace endpoints
fail at transport level, and whenever an endpoint is reached (the primary, or
the secondary after a transport failure of the primary) and the body of its
response has no line with the key `ip`. -/
theorem PublicIPv4_fails (env : Env)
    (h : (∃ e1 e2, env.Get (traceURL "1.1.1.1") = Except.error e1
          ∧ env.Get (traceURL "1.0.0.1") = Except.error e2)
      ∨ (∃ res, (env.Get (traceURL "1.1.1.1") = Except.ok res
            ∨ ((∃ e, env.Get (traceURL "1.1.1.1") = Except.error e)
              ∧ env.Get (traceURL "1.0.0.1") = Except.ok res))
          ∧ ∀ l ∈ res.Body.lines, lineKey l ≠ some "ip")) :
    (PublicIPv4 env).ip = "" ∧ ∃ e, (PublicIPv4 env).err = some e := by
  unfold PublicIPv4
  rcases h with ⟨e1, e2, h1, h2⟩ | ⟨res, hres, hnone⟩
  · rw [publicIP_both_failed env _ _ e1 e2 h1 h2]
    exact ⟨rfl, e2, rfl⟩
  · rcases hres with h1 | ⟨⟨e, h1⟩, h2⟩
    · rw [publicIP_primary_ok env _ _ res h1]
      exact readTrace_no_line env res _ hnone
    · rw [publicIP_secondary_ok env _ _ e res h1 h2]
      exact readTrace_no_line env res _ hnone

/-- Witness of C12: neither IPv4 trace endpoint can be reached. -/
theorem PublicIPv4_fails_witness :
    (PublicIPv4 envV6).ip = "" ∧ ∃ e, (PublicIPv4 envV6).err = some e :=
  PublicIPv4_fails envV6 (Or.inl ⟨unreachable, unreachable, rfl, rfl⟩)

/-- C15, as amended: `publicIP` itself requests the primary endpoint followed by the secondary
one exactly when `http.Get` on the primary returns an error, and the primary
endpoint alone exactly when `http.Get` on the primary hands back a response; in
particular, when the response `http.Get` hands back for the primary has a status
other than 200, `publicIP` returns the empty string and the error made from the
text of that status, and makes no request to the secondary endpoint. -/
theorem publicIP_secondary_iff_primary_failed (env : Env) (primary secondary : String) :
    ((publicIP env primary secondary).log
          = [Call.Get (traceURL primary), Call.Get (traceURL secondary)]
        ↔ ∃ e, env.Get (traceURL primary) = Except.error e)
      ∧ ((publicIP env primary secondary).log = [Call.Get (traceURL primary)]
        ↔ ∃ res, env.Get (traceURL primary) = Except.ok res)
      ∧ (∀ res, env.Get (traceURL primary) = Except.ok res → res.StatusCode ≠ 200 →
          (publicIP env primary secondary).ip = ""
          ∧ (publicIP env primary secondary).err
              = some (Error.New (env.StatusText res.StatusCode))
          ∧ (publicIP env primary secondary).log = [Call.Get (traceURL primary)]) := by
  refine ⟨?_, ?_, ?_⟩
  · rw [publicIP_log]
    cases h1 : env.Get (traceURL primary) with
    | ok res => simp
    | error e => simp
  · rw [publicIP_log]
    cases h1 : env.Get (traceURL primary) with
    | ok res => simp
    | error e => simp
  · intro res h1 hstatus
    rw [publicIP_primary_ok env primary secondary res h1, readTrace_status env res _ hstatus]
    exact ⟨rfl, rfl, rfl⟩

/-- Witness of the amended C15: the primary IPv6 endpoint answers 503; the error is made from the status
text and the secondary endpoint is not requested. -/
theorem publicIP_secondary_iff_primary_failed_witness :
    (publicIP envFailing "[2606:4700:4700::1111]" "[2606:4700:4700::1001]").ip = ""
      ∧ (publicIP envFailing "[2606:4700:4700::1111]" "[2606:4700:4700::1001]").err
          = some (Error.New "Service Unavailable")
      ∧ (publicIP envFailing "[2606:4700:4700::1111]" "[2606:4700:4700::1001]").log
          = [Call.Get (traceURL "[2606:4700:4700::1111]")] :=
  (publicIP_secondary_iff_primary_failed envFailing "[2606:4700:4700::1111]"
    "[2606:4700:4700::1001]").2.2 { StatusCode := 503, Body := { lines := [], err := none } }
    rfl (by decide)

/-- An answer that is not a redirect with a `Location` is what `http.Get`
hands back, and its URL is the only one contacted. -/
theorem getFollowing_direct (net : Net) (fuel : Nat) (url : String) (a : Answer)
    (h : net.roundTrip url = Except.ok a)
    (hdirect : ¬ (isRedirect a.StatusCode = true ∧ a.Location ≠ "")) :
    getFollowing net fuel url
      = (Except.ok { StatusCode := a.StatusCode, Body := a.Body }, [url]) := by
  cases fuel with
  | zero => simp only [getFollowing, h, hdirect, if_false]
  | succ n => simp only [getFollowing, h, hdirect, if_false]

/-- Counterexample to C15 as stated: the primary endpoint is reached and answers with the
status 302, other than 200, and a `Location` that names the secondary endpoint;
`http.Get` follows it, so the secondary endpoint is contacted without any
transport failure of the primary, and `publicIP` does not fail with an error
made from the status 302 but returns `5.6.7.8` without error. -/
theorem publicIP_follows_redirect :
    netRedirect.roundTrip (traceURL "1.1.1.1")
        = Except.ok { StatusCode := 302, Location := traceURL "1.0.0.1",
                      Body := { lines := [], err := none } }
      ∧ (302 : Int) ≠ 200
      ∧ netRedirect.contacted (traceURL "1.1.1.1") = [traceURL "1.1.1.1", traceURL "1.0.0.1"]
      ∧ (publicIP (envOver netRedirect) "1.1.1.1" "1.0.0.1").ip = "5.6.7.8"
      ∧ (publicIP (envOver netRedirect) "1.1.1.1" "1.0.0.1").err = none
      ∧ (publicIP (envOver netRedirect) "1.1.1.1" "1.0.0.1").log
          = [Call.Get (traceURL "1.1.1.1")] :=
  ⟨rfl, by decide, by decide, by decide, by decide, by decide⟩

/-! ### What the loop of `loadRecords` tracks -/

theorem loadLoop_second_AAAA (domain : String) (recs : List DNSRecord) :
    ∀ up : updater, up.aaaa ≠ "" → (∃ r ∈ recs, r.Typ = "AAAA") →
      ∃ e, (loadLoop domain up recs).2 = some e := by
  induction recs with
  | nil =>
    intro up _ h
    obtain ⟨r, hr, -⟩ := h
    cases hr
  | cons r rest ih =>
    intro up ha h
    by_cases hA : r.Typ = "A"
    · by_cases h4 : up.a = ""
      · have hne : r.Typ ≠ "AAAA" := by rw [hA]; decide
        have hrest : ∃ x ∈ rest, x.Typ = "AAAA" := by
          obtain ⟨x, hx, hxA⟩ := h
          rcases List.mem_cons.mp hx with rfl | hx
          · exact absurd hxA hne
          · exact ⟨x, hx, hxA⟩
        rw [loadLoop_cons_A domain up r rest hA h4]
        exact ih { up with a := r.ID, ipv4 := r.Content } ha hrest
      · rw [loadLoop_cons_A_dup domain up r rest hA h4]
        exact ⟨_, rfl⟩
    · by_cases hAAAA : r.Typ = "AAAA"
      · rw [loadLoop_cons_AAAA_dup domain up r rest hAAAA ha]
        exact ⟨_, rfl⟩
      · have hrest : ∃ x ∈ rest, x.Typ = "AAAA" := by
          obtain ⟨x, hx, hxA⟩ := h
          rcases List.mem_cons.mp hx with rfl | hx
          · exact absurd hxA hAAAA
          · exact ⟨x, hx, hxA⟩
        rw [loadLoop_cons_other domain up r rest hA hAAAA]
        exact ih up ha hrest

/-- When the loop runs to its end over records with non-empty ids, the fields
of a type hold the id and content of every record of that type in the list, and
are untouched when the list has none. -/
theorem loadLoop_tracks (domain : String) (recs : List DNSRecord) :
    ∀ up up1 : updater,
      (∀ r ∈ recs, (r.Typ = "A" ∨ r.Typ = "AAAA") → r.ID ≠ "") →
      loadLoop domain up recs = (up1, none) →
      (∀ r ∈ recs, r.Typ = "A" → up1.a = r.ID ∧ up1.ipv4 = r.Content)
      ∧ ((¬ ∃ r ∈ recs, r.Typ = "A") → up1.a = up.a ∧ up1.ipv4 = up.ipv4)
      ∧ (∀ r ∈ recs, r.Typ = "AAAA" → up1.aaaa = r.ID ∧ up1.ipv6 = r.Content)
      ∧ ((¬ ∃ r ∈ recs, r.Typ = "AAAA") → up1.aaaa = up.aaaa ∧ up1.ipv6 = up.ipv6) := by
  induction recs with
  | nil =>
    intro up up1 _ h
    simp only [loadLoop, Prod.mk.injEq, and_true] at h
    subst h
    refine ⟨?_, fun _ => ⟨rfl, rfl⟩, ?_, fun _ => ⟨rfl, rfl⟩⟩
    · intro r hr
      cases hr
    · intro r hr
      cases hr
  | cons r rest ih =>
    intro up up1 hid h
    have hid1 : ∀ x ∈ rest, (x.Typ = "A" ∨ x.Typ = "AAAA") → x.ID ≠ "" :=
      fun x hx => hid x (List.mem_cons_of_mem r hx)
    by_cases hA : r.Typ = "A"
    · have hne : r.Typ ≠ "AAAA" := by rw [hA]; decide
      by_cases h4 : up.a = ""
      · rw [loadLoop_cons_A domain up r rest hA h4] at h
        have hrid : r.ID ≠ "" := hid r (List.mem_cons_self r rest) (Or.inl hA)
        have hnoA : ¬ ∃ x ∈ rest, x.Typ = "A" := by
          intro hex
          obtain ⟨e, he⟩ := loadLoop_second_A domain rest
            { up with a := r.ID, ipv4 := r.Content } hrid hex
          rw [h] at he
          cases he
        obtain ⟨-, i2, i3, i4⟩ := ih { up with a := r.ID, ipv4 := r.Content } up1 hid1 h
        refine ⟨?_, ?_, ?_, ?_⟩
        · intro x hx hxA
          rcases List.mem_cons.mp hx with rfl | hx
          · exact i2 hnoA
          · exact absurd ⟨x, hx, hxA⟩ hnoA
        · intro hno
          exact absurd ⟨r, List.mem_cons_self r rest, hA⟩ hno
        · intro x hx hxA
          rcases List.mem_cons.mp hx with rfl | hx
          · exact absurd hxA hne
          · exact i3 x hx hxA
        · intro hno
          exact i4 (fun ⟨x, hx, hxA⟩ => hno ⟨x, List.mem_cons_of_mem r hx, hxA⟩)
      · rw [loadLoop_cons_A_dup domain up r rest hA h4] at h
        cases h
    · by_cases hAAAA : r.Typ = "AAAA"
      · by_cases h6 : up.aaaa = ""
        · rw [loadLoop_cons_AAAA domain up r rest hAAAA h6] at h
          have hrid : r.ID ≠ "" := hid r (List.mem_cons_self r rest) (Or.inr hAAAA)
          have hno6 : ¬ ∃ x ∈ rest, x.Typ = "AAAA" := by
            intro hex
            obtain ⟨e, he⟩ := loadLoop_second_AAAA domain rest
              { up with aaaa := r.ID, ipv6 := r.Content } hrid hex
            rw [h] at he
            cases he
          obtain ⟨i1, i2, -, i4⟩ := ih { up with aaaa := r.ID, ipv6 := r.Content } up1 hid1 h
          refine ⟨?_, ?_, ?_, ?_⟩
          · intro x hx hxA
            rcases List.mem_cons.mp hx with rfl | hx
            · exact absurd hxA hA
            · exact i1 x hx hxA
          · intro hno
            exact i2 (fun ⟨x, hx, hxA⟩ => hno ⟨x, List.mem_cons_of_mem r hx, hxA⟩)
          · intro x hx hxA
            rcases List.mem_cons.mp hx with rfl | hx
            · exact i4 hno6
            · exact absurd ⟨x, hx, hxA⟩ hno6
          · intro hno
            exact absurd ⟨r, List.mem_cons_self r rest, hAAAA⟩ hno
        · rw [loadLoop_cons_AAAA_dup domain up r rest hAAAA h6] at h
          cases h
      · rw [loadLoop_cons_other domain up r rest hA hAAAA] at h
        obtain ⟨i1, i2, i3, i4⟩ := ih up up1 hid1 h
        refine ⟨?_, ?_, ?_, ?_⟩
        · intro x hx hxA
          rcases List.mem_cons.mp hx with rfl | hx
          · exact absurd hxA hA
          · exact i1 x hx hxA
        · intro hno
          exact i2 (fun ⟨x, hx, hxA⟩ => hno ⟨x, List.mem_cons_of_mem r hx, hxA⟩)
        · intro x hx hxA
          rcases List.mem_cons.mp hx with rfl | hx
          · exact absurd hxA hAAAA
          · exact i3 x hx hxA
        · intro hno
          exact i4 (fun ⟨x, hx, hxA⟩ => hno ⟨x, List.mem_cons_of_mem r hx, hxA⟩)

theorem loadLoop_of_loadRecords_ok (api : API) (zone domain : String) (recs : List DNSRecord)
    (up1 : updater)
    (hlist : api.DNSRecords zone (nameFilter domain) = Except.ok recs)
    (hok : loadRecords api (updater.fresh zone) domain = (up1, none)) :
    loadLoop domain (updater.fresh zone) recs = (up1, none) := by
  rcases hp : loadLoop domain (updater.fresh zone) recs with ⟨u, o⟩
  cases o with
  | some e =>
    have := loadRecords_of_loop_err api zone domain recs e hlist (by rw [hp])
    rw [hok] at this
    cases this
  | none =>
    rw [loadRecords_of_loop_ok api zone domain recs u hlist hp] at hok
    split_ifs at hok
    · cases hok
    · cases hok
      rfl

/-! ## The record locator: what is tracked -/

/-- C13, as amended: for every record list whose records of type A and AAAA have non-empty
ids and on which `loadRecords` (on a freshly constructed updater) succeeds, each
record type is tracked exactly when the list contains a record of that type, and
the tracked id and the initial lastKnownContent are the id and the content of
that record in the list. -/
theorem loadRecords_tracks (api : API) (zone domain : String) (recs : List DNSRecord)
    (up1 : updater)
    (hlist : api.DNSRecords zone (nameFilter domain) = Except.ok recs)
    (hid : ∀ r ∈ recs, (r.Typ = "A" ∨ r.Typ = "AAAA") → r.ID ≠ "")
    (hok : loadRecords api (updater.fresh zone) domain = (up1, none)) :
    ∀ f : Family,
      (up1.id f ≠ "" ↔ ∃ r ∈ recs, r.Typ = f.typeName)
      ∧ (∀ r ∈ recs, r.Typ = f.typeName →
          up1.id f = r.ID ∧ up1.lastKnownContent f = r.Content) := by
  have hloop := loadLoop_of_loadRecords_ok api zone domain recs up1 hlist hok
  obtain ⟨a1, a2, b1, b2⟩ := loadLoop_tracks domain recs (updater.fresh zone) up1 hid hloop
  intro f
  cases f
  · simp only [updater.id, updater.lastKnownContent, Family.typeName]
    refine ⟨⟨?_, ?_⟩, a1⟩
    · intro htr
      by_contra hno
      exact htr (a2 hno).1
    · rintro ⟨r, hr, hrA⟩
      rw [(a1 r hr hrA).1]
      exact hid r hr (Or.inl hrA)
  · simp only [updater.id, updater.lastKnownContent, Family.typeName]
    refine ⟨⟨?_, ?_⟩, b1⟩
    · intro htr
      by_contra hno
      exact htr (b2 hno).1
    · rintro ⟨r, hr, hrA⟩
      rw [(b1 r hr hrA).1]
      exact hid r hr (Or.inr hrA)

/-- Witness of the amended C13: the provider returns a TXT record, `r1` and `r2`; the A
record `r1` is tracked with its id and content. -/
theorem loadRecords_tracks_witness :
    (({ zone := "z1", a := "r1", aaaa := "r2", ipv4 := "1.2.3.0", ipv6 := "2001:db8::1" }
          : updater).id Family.A ≠ ""
        ↔ ∃ r ∈ [recTxt, recR1, recR2], r.Typ = Family.A.typeName)
      ∧ (∀ r ∈ [recTxt, recR1, recR2], r.Typ = Family.A.typeName →
          ({ zone := "z1", a := "r1", aaaa := "r2", ipv4 := "1.2.3.0", ipv6 := "2001:db8::1" }
              : updater).id Family.A = r.ID
          ∧ ({ zone := "z1", a := "r1", aaaa := "r2", ipv4 := "1.2.3.0", ipv6 := "2001:db8::1" }
              : updater).lastKnownContent Family.A = r.Content) :=
  loadRecords_tracks (providerOf [recTxt, recR1, recR2] none) "z1" "home.example.com"
    [recTxt, recR1, recR2] _ rfl (by decide) (by decide) Family.A

/-- Counterexample to C13 as stated: the provider returns a record of type A with an empty id
and the AAAA record `r2`; `loadRecords` on a freshly constructed updater
succeeds, the list contains a record of type A, and no A record is tracked. -/
theorem loadRecords_A_present_untracked :
    (providerOf [recNoId, recR2] none).DNSRecords "z1" (nameFilter "home.example.com")
        = Except.ok [recNoId, recR2]
      ∧ recNoId ∈ [recNoId, recR2] ∧ recNoId.Typ = Family.A.typeName
      ∧ (loadRecords (providerOf [recNoId, recR2] none) (updater.fresh "z1")
          "home.example.com").2 = none
      ∧ (loadRecords (providerOf [recNoId, recR2] none) (updater.fresh "z1")
          "home.example.com").1.id Family.A = "" :=
  ⟨rfl, by decide, rfl, by decide, by decide⟩

/-! ### Requests of a block, and blocks that find nothing to do -/

theorem publicIP_log_mem (env : Env) (primary secondary : String) (c : Call)
    (hc : c ∈ (publicIP env primary secondary).log) :
    c = Call.Get (traceURL primary) ∨ c = Call.Get (traceURL secondary) := by
  rw [publicIP_log] at hc
  cases h1 : env.Get (traceURL primary) with
  | ok res =>
    rw [h1] at hc
    simp only [List.mem_singleton] at hc
    exact Or.inl hc
  | error e =>
    rw [h1] at hc
    simp only [List.mem_cons, List.mem_singleton, List.not_mem_nil, or_false] at hc
    exact hc

theorem updateRecord_no_Get (api : API) (f : Family) (zone record content url : String) :
    Call.Get url ∉ (updateRecord api f zone record content).log := by
  intro hc
  have := updateRecord_family api f zone record content _ hc
  cases this

/-- The requests to the trace service in the log after the A block are those
already there and those of `PublicIPv4`. -/
theorem blockA_Get (env : Env) (s : Result) (url : String)
    (hc : Call.Get url ∈ (blockA env s).log) :
    Call.Get url ∈ s.log ∨ Call.Get url ∈ (PublicIPv4 env).log := by
  by_cases h : s.up.a = ""
  · rw [blockA_untracked env s h] at hc
    exact Or.inl hc
  · cases hres : (PublicIPv4 env).err with
    | some e =>
      rw [blockA_resolve_failed env s h e hres] at hc
      exact List.mem_append.mp hc
    | none =>
      by_cases hip : (PublicIPv4 env).ip = s.up.ipv4
      · rw [blockA_same env s h hres hip] at hc
        exact List.mem_append.mp hc
      · cases hw : (updateRecord env.apiA Family.A s.up.zone s.up.a (PublicIPv4 env).ip).err with
        | none =>
          rw [blockA_write_ok env s h hres hip hw] at hc
          rcases List.mem_append.mp hc with h1 | h1
          · exact List.mem_append.mp h1
          · exact absurd h1 (updateRecord_no_Get _ _ _ _ _ _)
        | some e =>
          rw [blockA_write_failed env s h hres hip e hw] at hc
          rcases List.mem_append.mp hc with h1 | h1
          · exact List.mem_append.mp h1
          · exact absurd h1 (updateRecord_no_Get _ _ _ _ _ _)

/-- The requests to the trace service in the log after the AAAA block are
those already there and those of `PublicIPv6`. -/
theorem blockAAAA_Get (env : Env) (s : Result) (url : String)
    (hc : Call.Get url ∈ (blockAAAA env s).log) :
    Call.Get url ∈ s.log ∨ Call.Get url ∈ (PublicIPv6 env).log := by
  by_cases h : s.up.aaaa = ""
  · rw [blockAAAA_untracked env s h] at hc
    exact Or.inl hc
  · cases hres : (PublicIPv6 env).err with
    | some e =>
      rw [blockAAAA_resolve_failed env s h e hres] at hc
      exact List.mem_append.mp hc
    | none =>
      by_cases hip : (PublicIPv6 env).ip = s.up.ipv6
      · rw [blockAAAA_same env s h hres hip] at hc
        exact List.mem_append.mp hc
      · cases hw : (updateRecord env.apiAAAA Family.AAAA s.up.zone s.up.aaaa
            (PublicIPv6 env).ip).err with
        | none =>
          rw [blockAAAA_write_ok env s h hres hip hw] at hc
          rcases List.mem_append.mp hc with h1 | h1
          · exact List.mem_append.mp h1
          · exact absurd h1 (updateRecord_no_Get _ _ _ _ _ _)
        | some e =>
          rw [blockAAAA_write_failed env s h hres hip e hw] at hc
          rcases List.mem_append.mp hc with h1 | h1
          · exact List.mem_append.mp h1
          · exact absurd h1 (updateRecord_no_Get _ _ _ _ _ _)

theorem PublicIPv4_no_v6_url (env : Env) (u : String) (hu : u ∈ resolverURLs Family.AAAA) :
    Call.Get u ∉ (PublicIPv4 env).log := by
  intro hc
  have h := publicIP_log_mem env _ _ _ hc
  simp only [resolverURLs, List.mem_cons, List.mem_singleton, List.not_mem_nil, or_false] at hu
  rcases hu with rfl | rfl <;> rcases h with h | h <;> revert h <;> decide

theorem PublicIPv6_no_v4_url (env : Env) (u : String) (hu : u ∈ resolverURLs Family.A) :
    Call.Get u ∉ (PublicIPv6 env).log := by
  intro hc
  have h := publicIP_log_mem env _ _ _ hc
  simp only [resolverURLs, List.mem_cons, List.mem_singleton, List.not_mem_nil, or_false] at hu
  rcases hu with rfl | rfl <;> rcases h with h | h <;> revert h <;> decide

theorem blockA_no_error (env : Env) (s : Result) (h : s.up.a ≠ "")
    (herr : (blockA env s).err = none) :
    (PublicIPv4 env).err = none ∧ (blockA env s).up.ipv4 = (PublicIPv4 env).ip := by
  cases hres : (PublicIPv4 env).err with
  | some e =>
    rw [blockA_resolve_failed env s h e hres] at herr
    cases herr
  | none =>
    by_cases hip : (PublicIPv4 env).ip = s.up.ipv4
    · rw [blockA_same env s h hres hip]
      exact ⟨rfl, hip.symm⟩
    · cases hw : (updateRecord env.apiA Family.A s.up.zone s.up.a (PublicIPv4 env).ip).err with
      | none =>
        rw [blockA_write_ok env s h hres hip hw]
        exact ⟨rfl, rfl⟩
      | some e =>
        rw [blockA_write_failed env s h hres hip e hw] at herr
        cases herr

theorem blockAAAA_no_error (env : Env) (s : Result) (h : s.up.aaaa ≠ "")
    (herr : (blockAAAA env s).err = none) :
    (PublicIPv6 env).err = none ∧ (blockAAAA env s).up.ipv6 = (PublicIPv6 env).ip := by
  cases hres : (PublicIPv6 env).err with
  | some e =>
    rw [blockAAAA_resolve_failed env s h e hres] at herr
    cases herr
  | none =>
    by_cases hip : (PublicIPv6 env).ip = s.up.ipv6
    · rw [blockAAAA_same env s h hres hip]
      exact ⟨rfl, hip.symm⟩
    · cases hw : (updateRecord env.apiAAAA Family.AAAA s.up.zone s.up.aaaa
          (PublicIPv6 env).ip).err with
      | none =>
        rw [blockAAAA_write_ok env s h hres hip hw]
        exact ⟨rfl, rfl⟩
      | some e =>
        rw [blockAAAA_write_failed env s h hres hip e hw] at herr
        cases herr

/-- An A block that is skipped, or that resolves to the address already held,
changes nothing but the log, to which it adds no provider call. -/
theorem blockA_quiet (env : Env) (s : Result)
    (h : s.up.a ≠ "" → (PublicIPv4 env).err = none ∧ (PublicIPv4 env).ip = s.up.ipv4) :
    (blockA env s).up = s.up ∧ (blockA env s).err = s.err
      ∧ ∀ f, providerCalls f (blockA env s).log = providerCalls f s.log := by
  by_cases ha : s.up.a = ""
  · rw [blockA_untracked env s ha]
    exact ⟨rfl, rfl, fun _ => rfl⟩
  · obtain ⟨hres, hip⟩ := h ha
    rw [blockA_same env s ha hres hip]
    refine ⟨rfl, rfl, fun f => ?_⟩
    simp only [providerCalls_append, providerCalls_PublicIPv4, List.append_nil]

/-- An AAAA block that is skipped, or that resolves to the address already
held, changes nothing but the log, to which it adds no provider call. -/
theorem blockAAAA_quiet (env : Env) (s : Result)
    (h : s.up.aaaa ≠ "" → (PublicIPv6 env).err = none ∧ (PublicIPv6 env).ip = s.up.ipv6) :
    (blockAAAA env s).up = s.up ∧ (blockAAAA env s).err = s.err
      ∧ ∀ f, providerCalls f (blockAAAA env s).log = providerCalls f s.log := by
  by_cases ha : s.up.aaaa = ""
  · rw [blockAAAA_untracked env s ha]
    exact ⟨rfl, rfl, fun _ => rfl⟩
  · obtain ⟨hres, hip⟩ := h ha
    rw [blockAAAA_same env s ha hres hip]
    refine ⟨rfl, rfl, fun f => ?_⟩
    simp only [providerCalls_append, providerCalls_PublicIPv6, List.append_nil]

/-- A tracked A block run on a result without error: the named result and the
log are those of `PublicIPv4` followed, when the address is new, by
`updateRecord`. -/
theorem blockA_tracked (env : Env) (s : Result) (h : s.up.a ≠ "") (herr : s.err = none) :
    (blockA env s).err
        = (if (PublicIPv4 env).err = none ∧ (PublicIPv4 env).ip ≠ s.up.ipv4 then
            (updateRecord env.apiA Family.A s.up.zone s.up.a (PublicIPv4 env).ip).err
          else (PublicIPv4 env).err)
      ∧ (blockA env s).log
        = s.log ++ (PublicIPv4 env).log
          ++ (if (PublicIPv4 env).err = none ∧ (PublicIPv4 env).ip ≠ s.up.ipv4 then
              (updateRecord env.apiA Family.A s.up.zone s.up.a (PublicIPv4 env).ip).log
            else []) := by
  cases hres : (PublicIPv4 env).err with
  | some e =>
    rw [blockA_resolve_failed env s h e hres]
    simp
  | none =>
    by_cases hip : (PublicIPv4 env).ip = s.up.ipv4
    · rw [blockA_same env s h hres hip]
      simp [hip, herr]
    · cases hw : (updateRecord env.apiA Family.A s.up.zone s.up.a (PublicIPv4 env).ip).err with
      | none =>
        rw [blockA_write_ok env s h hres hip hw]
        simp [hip, herr]
      | some e =>
        rw [blockA_write_failed env s h hres hip e hw]
        simp [hip]

/-- A tracked AAAA block run on a result without error: the named result and
the log are those of `PublicIPv6` followed, when the address is new, by
`updateRecord`. -/
theorem blockAAAA_tracked (env : Env) (s : Result) (h : s.up.aaaa ≠ "")
    (herr : s.err = none) :
    (blockAAAA env s).err
        = (if (PublicIPv6 env).err = none ∧ (PublicIPv6 env).ip ≠ s.up.ipv6 then
            (updateRecord env.apiAAAA Family.AAAA s.up.zone s.up.aaaa (PublicIPv6 env).ip).err
          else (PublicIPv6 env).err)
      ∧ (blockAAAA env s).log
        = s.log ++ (PublicIPv6 env).log
          ++ (if (PublicIPv6 env).err = none ∧ (PublicIPv6 env).ip ≠ s.up.ipv6 then
              (updateRecord env.apiAAAA Family.AAAA s.up.zone s.up.aaaa (PublicIPv6 env).ip).log
            else []) := by
  cases hres : (PublicIPv6 env).err with
  | some e =>
    rw [blockAAAA_resolve_failed env s h e hres]
    simp
  | none =>
    by_cases hip : (PublicIPv6 env).ip = s.up.ipv6
    · rw [blockAAAA_same env s h hres hip]
      simp [hip, herr]
    · cases hw : (updateRecord env.apiAAAA Family.AAAA s.up.zone s.up.aaaa
          (PublicIPv6 env).ip).err with
      | none =>
        rw [blockAAAA_write_ok env s h hres hip hw]
        simp [hip, herr]
      | some e =>
        rw [blockAAAA_write_failed env s h hres hip e hw]
        simp [hip]

/-! ## The reconciler: one type, the frame, two cycles -/

/-- C14: when one record type is tracked and the other is not, `updateRecords` requests none
of the trace URLs of the other address family, makes no provider call from the
block of the other type, leaves the id and the lastKnownContent of the other
type as they were, and returns exactly the outcome of processing the tracked
type: the error of its resolver when the resolution fails, nil when the resolved
address is the lastKnownContent, and otherwise what `updateRecord` returns for
the tracked record and the resolved address; the calls made are those of that
resolver followed, in the last case, by those of that `updateRecord`. -/
theorem updateRecords_single_type (env : Env) (up : updater) (f : Family)
    (htracked : up.id f ≠ "")
    (hother : up.id f.other = "") :
    (∀ u ∈ resolverURLs f.other, Call.Get u ∉ (updateRecords env up).log)
      ∧ providerCalls f.other (updateRecords env up).log = []
      ∧ (updateRecords env up).up.id f.other = up.id f.other
      ∧ (updateRecords env up).up.lastKnownContent f.other = up.lastKnownContent f.other
      ∧ (updateRecords env up).err
        = (if (resolve env f).err = none ∧ (resolve env f).ip ≠ up.lastKnownContent f then
            (updateRecord (env.api f) f up.zone (up.id f) (resolve env f).ip).err
          else (resolve env f).err)
      ∧ (updateRecords env up).log
        = (resolve env f).log
          ++ (if (resolve env f).err = none ∧ (resolve env f).ip ≠ up.lastKnownContent f then
              (updateRecord (env.api f) f up.zone (up.id f) (resolve env f).ip).log
            else []) := by
  cases f
  · simp only [Family.other, updater.id, updater.lastKnownContent, resolve, Env.api]
      at htracked hother ⊢
    obtain ⟨-, -, ha, h6, -, hl⟩ := blockA_frame env
      { up := up, err := none, e4 := none, e6 := none, log := [] }
    obtain ⟨herr, hlog⟩ := blockA_tracked env
      { up := up, err := none, e4 := none, e6 := none, log := [] } htracked rfl
    have hskip : updateRecords env up
        = blockA env { up := up, err := none, e4 := none, e6 := none, log := [] } := by
      unfold updateRecords
      exact blockAAAA_untracked env _ (by rw [ha]; exact hother)
    rw [hskip]
    refine ⟨?_, ?_, ha, h6, herr, ?_⟩
    · intro u hu hc
      rcases blockA_Get env _ u hc with h1 | h1
      · cases h1
      · exact PublicIPv4_no_v6_url env u hu h1
    · rw [hl]
      rfl
    · rw [hlog]
      simp only [List.nil_append]
  · simp only [Family.other, updater.id, updater.lastKnownContent, resolve, Env.api]
      at htracked hother ⊢
    have hskip : updateRecords env up
        = blockAAAA env { up := up, err := none, e4 := none, e6 := none, log := [] } := by
      unfold updateRecords
      rw [blockA_untracked env _ hother]
    obtain ⟨-, ha, -, h4, -, hl⟩ := blockAAAA_frame env
      { up := up, err := none, e4 := none, e6 := none, log := [] }
    obtain ⟨herr, hlog⟩ := blockAAAA_tracked env
      { up := up, err := none, e4 := none, e6 := none, log := [] } htracked rfl
    rw [hskip]
    refine ⟨?_, ?_, ha, h4, herr, ?_⟩
    · intro u hu hc
      rcases blockAAAA_Get env _ u hc with h1 | h1
      · cases h1
      · exact PublicIPv6_no_v4_url env u hu h1
    · rw [hl]
      rfl
    · rw [hlog]
      simp only [List.nil_append]

/-- Witness of C14: only the A record `r1` is tracked, its address resolves to `1.2.3.4`, and
the provider refuses the write; the error returned is the one of that write, and
the calls are the IPv4 trace request, the re-read and the PATCH of `r1`. -/
theorem updateRecords_single_type_witness :
    (∀ u ∈ resolverURLs Family.AAAA, Call.Get u ∉ (updateRecords envFailing upA).log)
      ∧ providerCalls Family.AAAA (updateRecords envFailing upA).log = []
      ∧ (updateRecords envFailing upA).up.aaaa = ""
      ∧ (updateRecords envFailing upA).up.ipv6 = ""
      ∧ (updateRecords envFailing upA).err = some (Error.lib "HTTP status 403: forbidden")
      ∧ (updateRecords envFailing upA).log
        = [Call.Get "https://1.1.1.1/cdn-cgi/trace",
           Call.DNSRecord Family.A "z1" "r1",
           Call.Raw Family.A "PATCH" "/zones/z1/dns_records/r1"
             { recR1 with Content := "1.2.3.4" }] :=
  updateRecords_single_type envFailing upA Family.A (by decide) (by decide)

/-- C16 (frame): for every updater state and every environment, `updateRecords` leaves the
zone identifier and both tracked record ids unchanged; it can differ from the
state it was given only in the two lastKnownContent values. -/
theorem updateRecords_frame (env : Env) (up : updater) :
    (updateRecords env up).up.zone = up.zone
      ∧ (updateRecords env up).up.a = up.a
      ∧ (updateRecords env up).up.aaaa = up.aaaa
      ∧ (updateRecords env up).up
          = { up with ipv4 := (updateRecords env up).up.ipv4,
                      ipv6 := (updateRecords env up).up.ipv6 } := by
  obtain ⟨hz1, ha1, h61, -, -, -⟩ := blockA_frame env
    { up := up, err := none, e4 := none, e6 := none, log := [] }
  obtain ⟨hz2, ha2, h62, -, -, -⟩ := blockAAAA_frame env
    (blockA env { up := up, err := none, e4 := none, e6 := none, log := [] })
  have hz : (updateRecords env up).up.zone = up.zone := by
    unfold updateRecords
    rw [hz2, hz1]
  have ha : (updateRecords env up).up.a = up.a := by
    unfold updateRecords
    rw [ha2, ha1]
  have h6 : (updateRecords env up).up.aaaa = up.aaaa := by
    unfold updateRecords
    rw [h62, h61]
  refine ⟨hz, ha, h6, ?_⟩
  rw [← hz, ← ha, ← h6]

/-- C17 (repeat idempotence): if a call of `updateRecords` returns no error, then a call that
follows it on the resulting state, in a world where the resolver of every
tracked type returns the same address again, makes no provider call (no re-read,
no PATCH), returns no error and leaves the state unchanged. -/
theorem updateRecords_repeat (env1 env2 : Env) (up : updater)
    (hok : (updateRecords env1 up).err = none)
    (hsame : ∀ f, up.id f ≠ "" →
      (resolve env2 f).err = (resolve env1 f).err
        ∧ (resolve env2 f).ip = (resolve env1 f).ip) :
    (∀ f, providerCalls f (updateRecords env2 (updateRecords env1 up).up).log = [])
      ∧ (updateRecords env2 (updateRecords env1 up).up).err = none
      ∧ (updateRecords env2 (updateRecords env1 up).up).up = (updateRecords env1 up).up := by
  obtain ⟨-, ha1, h61, hv61, he61, -⟩ := blockA_frame env1
    { up := up, err := none, e4 := none, e6 := none, log := [] }
  obtain ⟨-, ha2, h62, hv42, -, -⟩ := blockAAAA_frame env1
    (blockA env1 { up := up, err := none, e4 := none, e6 := none, log := [] })
  have herr := blockAAAA_err env1
    (blockA env1 { up := up, err := none, e4 := none, e6 := none, log := [] }) he61
  have hok2 : (blockAAAA env1
      (blockA env1 { up := up, err := none, e4 := none, e6 := none, log := [] })).err
      = none := hok
  have hok1 : (blockA env1 { up := up, err := none, e4 := none, e6 := none, log := [] }).err
      = none := by
    rw [hok2] at herr
    revert herr
    cases (blockAAAA env1
      (blockA env1 { up := up, err := none, e4 := none, e6 := none, log := [] })).e6 with
    | none => exact fun h => h.symm
    | some e => exact fun h => by cases h
  have hq4 : ((updateRecords env1 up).up.a ≠ "" →
      (PublicIPv4 env2).err = none ∧ (PublicIPv4 env2).ip = (updateRecords env1 up).up.ipv4) := by
    unfold updateRecords
    rw [ha2, ha1, hv42]
    intro htr
    obtain ⟨h1, h2⟩ := blockA_no_error env1 _ htr hok1
    obtain ⟨s1, s2⟩ := hsame Family.A htr
    simp only [resolve] at s1 s2
    exact ⟨by rw [s1, h1], by rw [s2, h2]⟩
  have hq6 : ((updateRecords env1 up).up.aaaa ≠ "" →
      (PublicIPv6 env2).err = none ∧ (PublicIPv6 env2).ip = (updateRecords env1 up).up.ipv6) := by
    unfold updateRecords
    rw [h62, h61]
    intro htr
    obtain ⟨h1, h2⟩ := blockAAAA_no_error env1 _ (by rw [h61]; exact htr) hok2
    obtain ⟨s1, s2⟩ := hsame Family.AAAA htr
    simp only [resolve] at s1 s2
    exact ⟨by rw [s1, h1], by rw [s2, h2]⟩
  obtain ⟨qu1, qe1, ql1⟩ := blockA_quiet env2
    { up := (updateRecords env1 up).up, err := none, e4 := none, e6 := none, log := [] } hq4
  obtain ⟨qu2, qe2, ql2⟩ := blockAAAA_quiet env2
    (blockA env2
      { up := (updateRecords env1 up).up, err := none, e4 := none, e6 := none, log := [] })
    (by rw [qu1]; exact hq6)
  have hunf : updateRecords env2 (updateRecords env1 up).up
      = blockAAAA env2 (blockA env2
          { up := (updateRecords env1 up).up, err := none, e4 := none, e6 := none, log := [] }) :=
    rfl
  rw [hunf]
  refine ⟨?_, ?_, ?_⟩
  · intro f
    rw [ql2 f, ql1 f]
    rfl
  · rw [qe2, qe1]
  · rw [qu2, qu1]

/-- Witness of C17: after `r1` has been patched to `1.2.3.4`, a second cycle in the same
world makes no provider call. -/
theorem updateRecords_repeat_witness :
    (∀ f, providerCalls f (updateRecords envV4 (updateRecords envV4 upA).up).log = [])
      ∧ (updateRecords envV4 (updateRecords envV4 upA).up).err = none
      ∧ (updateRecords envV4 (updateRecords envV4 upA).up).up = (updateRecords envV4 upA).up :=
  updateRecords_repeat envV4 envV4 upA (by decide) (fun _ _ => ⟨rfl, rfl⟩)

end dyndns
